/-
Verification of the awkward "Form" subsystem (schema metadata trees).

This file gives a shallow embedding of the Form data model and the
operations of src/awkward/forms/form.py, src/awkward/forms/recordform.py,
src/awkward/forms/bytemaskedform.py, src/awkward/types/arraytype.py and
src/awkward/operations/ak_to_layout.py, and proves or refutes the claims
of the specification about them.

Conventions of the embedding:
- Python JSON-compatible values are the inductive type JVal.
- Python `None` becomes `Option.none`; machine integers are Int/Nat.
- A raising Python function becomes an `Except FormError` function.
- Parameter dictionaries are association lists in insertion order; the
  parameter VALUES (opaque to every operation modelled here) are
  modelled as strings.
-/
import Mathlib

/-- Embedding of a Python JSON-compatible value (the payloads consumed by
form.from_dict and produced by Form.to_dict). -/
inductive JVal where
  | null
  | bool (b : Bool)
  | num (n : Int)
  | str (s : String)
  | arr (xs : List JVal)
  | obj (kvs : List (String × JVal))

/-- Parameters of a Form node: `None` or a string-keyed mapping, kept in
insertion order.  Parameter values are opaque to all code modelled here and
are embedded as strings. -/
abbrev Params := Option (List (String × String))

/-- Errors raised by the modelled Python code. -/
inductive FormError where
  | keyError (key : String)
  | typeError (msg : String)
  | valueError (msg : String)
  | assertError

/-- Embedding of the Form node hierarchy (the closed set of schema variants
from the spec, one constructor per Python Form subclass).  Fields follow the
constructor arguments of each class: physical fields, then parameters, then
form_key. -/
inductive Form where
  | numpy (primitive : String) (inner_shape : List Nat) (ps : Params) (fk : Option String)
  | empty (ps : Params) (fk : Option String)
  | regular (content : Form) (size : Option Nat) (ps : Params) (fk : Option String)
  | list (starts : String) (stops : String) (content : Form) (ps : Params) (fk : Option String)
  | listoffset (offsets : String) (content : Form) (ps : Params) (fk : Option String)
  | record (contents : List Form) (fields : Option (List String)) (ps : Params) (fk : Option String)
  | indexed (index : String) (content : Form) (ps : Params) (fk : Option String)
  | indexedoption (index : String) (content : Form) (ps : Params) (fk : Option String)
  | bytemasked (mask : String) (content : Form) (valid_when : Bool) (ps : Params) (fk : Option String)
  | bitmasked (mask : String) (content : Form) (valid_when : Bool) (lsb_order : Bool) (ps : Params) (fk : Option String)
  | unmasked (content : Form) (ps : Params) (fk : Option String)
  | union (tags : String) (index : String) (contents : List Form) (ps : Params) (fk : Option String)

/-- Modelled from the spec: the class attribute is_union of the Form meta
classes (the _meta module is not under src/); per the spec the only union
variant is the Union form. -/
def isUnionForm : Form → Bool
  | .union _ _ _ _ _ => true
  | _ => false

/-- Modelled from the spec: the class attribute is_option of the Form meta
classes (the _meta module is not under src/); the option-flavored composites
are IndexedOption, ByteMasked, BitMasked and Unmasked. -/
def isOptionForm : Form → Bool
  | .indexedoption _ _ _ _ => true
  | .bytemasked _ _ _ _ _ => true
  | .bitmasked _ _ _ _ _ _ => true
  | .unmasked _ _ _ => true
  | _ => false

/-- Modelled from the spec: the class attribute is_indexed of the Form meta
classes (the _meta module is not under src/); the index forms are Indexed
and IndexedOption. -/
def isIndexedForm : Form → Bool
  | .indexed _ _ _ _ => true
  | .indexedoption _ _ _ _ => true
  | _ => false

/-- Parameters field of a Form node (the _parameters attribute). -/
def formParameters : Form → Params
  | .numpy _ _ ps _ => ps
  | .empty ps _ => ps
  | .regular _ _ ps _ => ps
  | .list _ _ _ ps _ => ps
  | .listoffset _ _ ps _ => ps
  | .record _ _ ps _ => ps
  | .indexed _ _ ps _ => ps
  | .indexedoption _ _ ps _ => ps
  | .bytemasked _ _ _ ps _ => ps
  | .bitmasked _ _ _ _ ps _ => ps
  | .unmasked _ ps _ => ps
  | .union _ _ _ ps _ => ps

/-- Single child of a composite Form node (the content attribute), when the
variant has one. -/
def formContent : Form → Option Form
  | .regular c _ _ _ => some c
  | .list _ _ c _ _ => some c
  | .listoffset _ c _ _ => some c
  | .indexed _ c _ _ => some c
  | .indexedoption _ c _ _ => some c
  | .bytemasked _ c _ _ _ => some c
  | .bitmasked _ c _ _ _ _ => some c
  | .unmasked c _ _ => some c
  | _ => none

/-- Equality of two parameter fields, as used by the Form __eq__ methods.
Modelled from the spec: the helpers _parameters_equal / type_parameters_equal
are not under src/; per the spec, container-level parameter comparison is
exact, and an absent mapping counts the same as an empty one (the parameters
property materializes an empty dict for None). -/
def paramsEqual : Params → Params → Bool
  | none, none => true
  | none, some l => l.isEmpty
  | some l, none => l.isEmpty
  | some l, some l' => decide (l = l')

theorem paramsEqual_refl (ps : Params) : paramsEqual ps ps = true := by
  cases ps <;> simp [paramsEqual]

theorem paramsEqual_symm (ps ps' : Params) : paramsEqual ps ps' = paramsEqual ps' ps := by
  cases ps <;> cases ps' <;> simp [paramsEqual, eq_comm]

theorem lookup_mem_sizeOf {β : Type} [SizeOf β] {kvs : List (String × β)} {k : String} {v : β}
    (h : kvs.lookup k = some v) : sizeOf v < sizeOf kvs := by
  induction kvs with
  | nil => simp [List.lookup] at h
  | cons kv rest ih =>
    rw [List.lookup] at h
    cases hk : k == kv.1 with
    | true =>
      rw [hk] at h
      simp at h
      cases kv
      simp [← h]
      omega
    | false =>
      rw [hk] at h
      simp at h
      have := ih h
      simp
      omega

theorem zip_sizeOf_le (a : List String) (cs : List Form) :
    sizeOf (a.zip cs) ≤ sizeOf a + sizeOf cs := by
  induction a generalizing cs with
  | nil => cases cs <;> simp [List.zip]
  | cons x xs ih =>
    cases cs with
    | nil => simp [List.zip]
    | cons c cs' =>
      have := ih cs'
      simp [List.zip] at this ⊢
      omega

mutual
/-- Embedding of Form.__eq__ per variant.  ByteMasked (bytemaskedform.py,
lines 137-147) and Record (recordform.py, lines 159-179) follow the source;
the remaining variants are modelled from the spec (§4.1: variant identity,
all physical fields, form_key, parameters).  Record equality in fields mode
compares dict(zip(fields, contents)) == dict(zip(fields, contents)) as in
the source; the association lists are compared entrywise by key lookup,
which agrees with Python dict equality for records satisfying the
no-duplicate-fields invariant. -/
def formEq (f g : Form) : Bool :=
  match f, g with
  | .numpy p sh ps fk, .numpy p' sh' ps' fk' =>
    p == p' && sh == sh' && fk == fk' && paramsEqual ps ps'
  | .empty ps fk, .empty ps' fk' => fk == fk' && paramsEqual ps ps'
  | .regular c sz ps fk, .regular c' sz' ps' fk' =>
    sz == sz' && fk == fk' && paramsEqual ps ps' && formEq c c'
  | .list s t c ps fk, .list s' t' c' ps' fk' =>
    s == s' && t == t' && fk == fk' && paramsEqual ps ps' && formEq c c'
  | .listoffset o c ps fk, .listoffset o' c' ps' fk' =>
    o == o' && fk == fk' && paramsEqual ps ps' && formEq c c'
  | .record cs fs ps fk, .record cs' fs' ps' fk' =>
    fk == fk' && (fs.isNone == fs'.isNone) && cs.length == cs'.length
      && paramsEqual ps ps'
      && (match fs, fs' with
          | none, none => formListEq cs cs'
          | some a, some b =>
            formDictLe (a.zip cs) (b.zip cs') && formDictLe (b.zip cs') (a.zip cs)
          | _, _ => false)
  | .indexed i c ps fk, .indexed i' c' ps' fk' =>
    i == i' && fk == fk' && paramsEqual ps ps' && formEq c c'
  | .indexedoption i c ps fk, .indexedoption i' c' ps' fk' =>
    i == i' && fk == fk' && paramsEqual ps ps' && formEq c c'
  | .bytemasked m c vw ps fk, .bytemasked m' c' vw' ps' fk' =>
    fk == fk' && m == m' && vw == vw' && paramsEqual ps ps' && formEq c c'
  | .bitmasked m c vw lo ps fk, .bitmasked m' c' vw' lo' ps' fk' =>
    m == m' && vw == vw' && lo == lo' && fk == fk' && paramsEqual ps ps' && formEq c c'
  | .unmasked c ps fk, .unmasked c' ps' fk' =>
    fk == fk' && paramsEqual ps ps' && formEq c c'
  | .union t i cs ps fk, .union t' i' cs' ps' fk' =>
    t == t' && i == i' && fk == fk' && paramsEqual ps ps' && formListEq cs cs'
  | _, _ => false
termination_by sizeOf f + sizeOf g
decreasing_by
  all_goals simp
  all_goals try omega
  all_goals try (have hb := lookup_mem_sizeOf hw; omega)
  all_goals (have h1 := zip_sizeOf_le a cs; have h2 := zip_sizeOf_le b cs'; omega)

/-- Elementwise equality of two content lists (Python list ==). -/
def formListEq (l l' : List Form) : Bool :=
  match l, l' with
  | [], [] => true
  | x :: xs, y :: ys => formEq x y && formListEq xs ys
  | _, _ => false
termination_by sizeOf l + sizeOf l'
decreasing_by
  all_goals simp
  all_goals omega

/-- One inclusion of the dict comparison of Record equality: every entry of
the first association list must be found (by key) in the second, with a
form-equal value. -/
def formDictLe (d d' : List (String × Form)) : Bool :=
  match d with
  | [] => true
  | (k, v) :: rest =>
    (match hw : d'.lookup k with
     | some w => formEq v w
     | none => false)
    && formDictLe rest d'
termination_by sizeOf d + sizeOf d'
decreasing_by
  all_goals simp
  all_goals try omega
  all_goals try (have hb := lookup_mem_sizeOf hw; omega)
end

theorem formEq_numpy (p p' : String) (sh sh' : List Nat) (ps ps' : Params) (fk fk' : Option String) :
    formEq (.numpy p sh ps fk) (.numpy p' sh' ps' fk')
      = (p == p' && sh == sh' && fk == fk' && paramsEqual ps ps') := by
  simp only [formEq]

theorem formEq_empty (ps ps' : Params) (fk fk' : Option String) :
    formEq (.empty ps fk) (.empty ps' fk') = (fk == fk' && paramsEqual ps ps') := by
  simp only [formEq]

theorem formEq_regular (c c' : Form) (sz sz' : Option Nat) (ps ps' : Params) (fk fk' : Option String) :
    formEq (.regular c sz ps fk) (.regular c' sz' ps' fk')
      = (sz == sz' && fk == fk' && paramsEqual ps ps' && formEq c c') := by
  simp only [formEq]

theorem formEq_list (s s' t t' : String) (c c' : Form) (ps ps' : Params) (fk fk' : Option String) :
    formEq (.list s t c ps fk) (.list s' t' c' ps' fk')
      = (s == s' && t == t' && fk == fk' && paramsEqual ps ps' && formEq c c') := by
  simp only [formEq]

theorem formEq_listoffset (o o' : String) (c c' : Form) (ps ps' : Params) (fk fk' : Option String) :
    formEq (.listoffset o c ps fk) (.listoffset o' c' ps' fk')
      = (o == o' && fk == fk' && paramsEqual ps ps' && formEq c c') := by
  simp only [formEq]

theorem formEq_indexed (i i' : String) (c c' : Form) (ps ps' : Params) (fk fk' : Option String) :
    formEq (.indexed i c ps fk) (.indexed i' c' ps' fk')
      = (i == i' && fk == fk' && paramsEqual ps ps' && formEq c c') := by
  simp only [formEq]

theorem formEq_indexedoption (i i' : String) (c c' : Form) (ps ps' : Params) (fk fk' : Option String) :
    formEq (.indexedoption i c ps fk) (.indexedoption i' c' ps' fk')
      = (i == i' && fk == fk' && paramsEqual ps ps' && formEq c c') := by
  simp only [formEq]

theorem formEq_bytemasked (m m' : String) (c c' : Form) (vw vw' : Bool) (ps ps' : Params) (fk fk' : Option String) :
    formEq (.bytemasked m c vw ps fk) (.bytemasked m' c' vw' ps' fk')
      = (fk == fk' && m == m' && vw == vw' && paramsEqual ps ps' && formEq c c') := by
  simp only [formEq]

theorem formEq_bitmasked (m m' : String) (c c' : Form) (vw vw' lo lo' : Bool) (ps ps' : Params) (fk fk' : Option String) :
    formEq (.bitmasked m c vw lo ps fk) (.bitmasked m' c' vw' lo' ps' fk')
      = (m == m' && vw == vw' && lo == lo' && fk == fk' && paramsEqual ps ps' && formEq c c') := by
  simp only [formEq]

theorem formEq_unmasked (c c' : Form) (ps ps' : Params) (fk fk' : Option String) :
    formEq (.unmasked c ps fk) (.unmasked c' ps' fk')
      = (fk == fk' && paramsEqual ps ps' && formEq c c') := by
  simp only [formEq]

theorem formEq_union (t t' i i' : String) (cs cs' : List Form) (ps ps' : Params) (fk fk' : Option String) :
    formEq (.union t i cs ps fk) (.union t' i' cs' ps' fk')
      = (t == t' && i == i' && fk == fk' && paramsEqual ps ps' && formListEq cs cs') := by
  simp only [formEq]

theorem formEq_record_tuple (cs cs' : List Form) (ps ps' : Params) (fk fk' : Option String) :
    formEq (.record cs none ps fk) (.record cs' none ps' fk')
      = (fk == fk' && cs.length == cs'.length && paramsEqual ps ps' && formListEq cs cs') := by
  simp only [formEq, Option.isNone]
  simp

theorem formEq_record_fields (cs cs' : List Form) (a b : List String) (ps ps' : Params) (fk fk' : Option String) :
    formEq (.record cs (some a) ps fk) (.record cs' (some b) ps' fk')
      = (fk == fk' && cs.length == cs'.length && paramsEqual ps ps'
          && (formDictLe (a.zip cs) (b.zip cs') && formDictLe (b.zip cs') (a.zip cs))) := by
  simp only [formEq, Option.isNone]
  simp

theorem formEq_record_mixed (cs cs' : List Form) (a : List String) (ps ps' : Params) (fk fk' : Option String) :
    formEq (.record cs (some a) ps fk) (.record cs' none ps' fk') = false ∧
    formEq (.record cs' none ps' fk') (.record cs (some a) ps fk) = false := by
  constructor <;> simp only [formEq, Option.isNone] <;> simp

theorem formListEq_nil : formListEq [] [] = true := by simp only [formListEq]

theorem formListEq_cons (x y : Form) (xs ys : List Form) :
    formListEq (x :: xs) (y :: ys) = (formEq x y && formListEq xs ys) := by
  simp only [formListEq]

theorem formDictLe_nil (d' : List (String × Form)) : formDictLe [] d' = true := by
  simp only [formDictLe]

theorem formDictLe_cons_some {d' : List (String × Form)} {k : String} {w : Form}
    (hw : d'.lookup k = some w) (v : Form) (rest : List (String × Form)) :
    formDictLe ((k, v) :: rest) d' = (formEq v w && formDictLe rest d') := by
  simp only [formDictLe]
  split
  · rename_i w2 hw2
    rw [hw] at hw2
    cases hw2
    rfl
  · rename_i hw2
    rw [hw] at hw2
    cases hw2

/-- Index dtypes of the List/ListOffset/Indexed forms and of the Union index
(spec §3: 32-bit signed, 32-bit unsigned, 64-bit signed). -/
def indexDtypes : List String := ["i32", "u32", "i64"]

/-- Index dtypes of the IndexedOption form (spec §3: signed dtype enum,
since a negative sentinel marks a missing slot). -/
def optionIndexDtypes : List String := ["i32", "i64"]

/-- Units accepted in datetime64/timedelta64 primitive names. -/
def datetimeUnits : List String :=
  ["Y", "M", "W", "D", "h", "m", "s", "ms", "us", "ns", "ps", "fs", "as"]

/-- Fixed-width primitive dtype names of the Numpy form. -/
def primitiveNames : List String :=
  ["bool", "int8", "int16", "int32", "int64", "uint8", "uint16", "uint32",
   "uint64", "float16", "float32", "float64", "complex64", "complex128"]

/-- Modelled from the spec: the primitive enumeration of NumpyForm (spec §3:
boolean, signed/unsigned integers of fixed widths, floating-point widths,
complex widths, datetime/timedelta with a unit); NumpyForm.__init__ is not
under src/. -/
def isPrimitive (s : String) : Bool :=
  primitiveNames.contains s
    || datetimeUnits.any (fun u =>
         s == "datetime64[" ++ u ++ "]" || s == "timedelta64[" ++ u ++ "]")

mutual
/-- Well-formedness of a Form tree: the invariants stated in spec §3 (index
and tag dtypes drawn from their enumerations, a Record's field list as long
as its content list and free of duplicates, primitives in the primitive
enumeration).  The mask dtype of the masked variants is unconstrained, as
neither the spec nor the source constructor restricts it. -/
def wfForm : Form → Bool
  | .numpy p _ _ _ => isPrimitive p
  | .empty _ _ => true
  | .regular c _ _ _ => wfForm c
  | .list s t c _ _ => indexDtypes.contains s && indexDtypes.contains t && wfForm c
  | .listoffset o c _ _ => indexDtypes.contains o && wfForm c
  | .record cs fs _ _ =>
    (match fs with
     | none => true
     | some a => a.length == cs.length && decide a.Nodup)
    && wfFormList cs
  | .indexed i c _ _ => indexDtypes.contains i && wfForm c
  | .indexedoption i c _ _ => optionIndexDtypes.contains i && wfForm c
  | .bytemasked _ c _ _ _ => wfForm c
  | .bitmasked _ c _ _ _ _ => wfForm c
  | .unmasked c _ _ => wfForm c
  | .union t i cs _ _ => t == "i8" && indexDtypes.contains i && wfFormList cs
termination_by f => sizeOf f
decreasing_by
  all_goals simp
  all_goals omega

def wfFormList : List Form → Bool
  | [] => true
  | c :: cs => wfForm c && wfFormList cs
termination_by l => sizeOf l
decreasing_by
  all_goals simp
  all_goals omega
end

theorem wfForm_regular (c : Form) (sz : Option Nat) (ps : Params) (fk : Option String) :
    wfForm (.regular c sz ps fk) = wfForm c := by simp only [wfForm]

theorem wfForm_list (s t : String) (c : Form) (ps : Params) (fk : Option String) :
    wfForm (.list s t c ps fk)
      = (indexDtypes.contains s && indexDtypes.contains t && wfForm c) := by
  simp only [wfForm]

theorem wfForm_listoffset (o : String) (c : Form) (ps : Params) (fk : Option String) :
    wfForm (.listoffset o c ps fk) = (indexDtypes.contains o && wfForm c) := by
  simp only [wfForm]

theorem wfForm_record (cs : List Form) (fs : Option (List String)) (ps : Params) (fk : Option String) :
    wfForm (.record cs fs ps fk)
      = ((match fs with
          | none => true
          | some a => a.length == cs.length && decide a.Nodup) && wfFormList cs) := by
  cases fs <;> simp only [wfForm]

theorem wfForm_indexed (i : String) (c : Form) (ps : Params) (fk : Option String) :
    wfForm (.indexed i c ps fk) = (indexDtypes.contains i && wfForm c) := by
  simp only [wfForm]

theorem wfForm_indexedoption (i : String) (c : Form) (ps : Params) (fk : Option String) :
    wfForm (.indexedoption i c ps fk) = (optionIndexDtypes.contains i && wfForm c) := by
  simp only [wfForm]

theorem wfForm_bytemasked (m : String) (c : Form) (vw : Bool) (ps : Params) (fk : Option String) :
    wfForm (.bytemasked m c vw ps fk) = wfForm c := by simp only [wfForm]

theorem wfForm_bitmasked (m : String) (c : Form) (vw lo : Bool) (ps : Params) (fk : Option String) :
    wfForm (.bitmasked m c vw lo ps fk) = wfForm c := by simp only [wfForm]

theorem wfForm_unmasked (c : Form) (ps : Params) (fk : Option String) :
    wfForm (.unmasked c ps fk) = wfForm c := by simp only [wfForm]

theorem wfForm_union (t i : String) (cs : List Form) (ps : Params) (fk : Option String) :
    wfForm (.union t i cs ps fk)
      = (t == "i8" && indexDtypes.contains i && wfFormList cs) := by
  simp only [wfForm]

theorem wfFormList_cons (c : Form) (cs : List Form) :
    wfFormList (c :: cs) = (wfForm c && wfFormList cs) := by simp only [wfFormList]

/-- Embedding of ByteMaskedForm.__init__ (bytemaskedform.py lines 24-53).
The constructor checks only the Python types of its arguments: mask must be
a str and valid_when a bool (content being a Form is guaranteed by the
embedding type).  No dtype-enumeration check is performed. -/
def byteMaskedFormMk (mask : JVal) (content : Form) (valid_when : JVal)
    (ps : Params) (fk : Option String) : Except FormError Form :=
  match mask with
  | .str m =>
    match valid_when with
    | .bool b => .ok (.bytemasked m content b ps fk)
    | _ => .error (.typeError "ByteMaskedForm valid_when must be bool")
  | _ => .error (.typeError "ByteMaskedForm mask must be of type str")

/-- Embedding of RecordForm.__init__ (recordform.py lines 16-52).  The
constructor checks only that contents is an iterable of Forms and that
fields is None or iterable, all guaranteed by the embedding types, so
construction never fails; in particular the lengths of fields and contents
are not compared and duplicate field names are not rejected. -/
def recordFormMk (contents : List Form) (fields : Option (List String))
    (ps : Params) (fk : Option String) : Except FormError Form :=
  .ok (.record contents fields ps fk)

/-- Modelled from the spec: NumpyForm.__init__ is not under src/; spec §3
and §4.1 require the primitive to lie in the primitive enumeration and the
constructor to fail on an out-of-enumeration dtype string. -/
def numpyFormMk (primitive : JVal) (inner_shape : List Nat)
    (ps : Params) (fk : Option String) : Except FormError Form :=
  match primitive with
  | .str p =>
    if isPrimitive p then .ok (.numpy p inner_shape ps fk)
    else .error (.typeError "NumpyForm primitive must be in the primitive enumeration")
  | _ => .error (.typeError "NumpyForm primitive must be of type str")

/-- Modelled from the spec: ListForm.__init__ is not under src/; spec §3
and §4.1 require starts and stops to be strings drawn from the index-dtype
enumeration. -/
def listFormMk (starts stops : JVal) (content : Form)
    (ps : Params) (fk : Option String) : Except FormError Form :=
  match starts, stops with
  | .str s, .str t =>
    if indexDtypes.contains s && indexDtypes.contains t then
      .ok (.list s t content ps fk)
    else .error (.typeError "ListForm starts and stops must be index dtypes")
  | _, _ => .error (.typeError "ListForm starts and stops must be of type str")

/-- Modelled from the spec: ListOffsetForm.__init__ is not under src/; spec
§3 and §4.1 require offsets to be a string drawn from the index-dtype
enumeration. -/
def listOffsetFormMk (offsets : JVal) (content : Form)
    (ps : Params) (fk : Option String) : Except FormError Form :=
  match offsets with
  | .str o =>
    if indexDtypes.contains o then .ok (.listoffset o content ps fk)
    else .error (.typeError "ListOffsetForm offsets must be an index dtype")
  | _ => .error (.typeError "ListOffsetForm offsets must be of type str")

/-- Modelled from the spec: IndexedForm.__init__ is not under src/; spec §3
and §4.1 require the index to be a string drawn from the index-dtype
enumeration. -/
def indexedFormMk (index : JVal) (content : Form)
    (ps : Params) (fk : Option String) : Except FormError Form :=
  match index with
  | .str i =>
    if indexDtypes.contains i then .ok (.indexed i content ps fk)
    else .error (.typeError "IndexedForm index must be an index dtype")
  | _ => .error (.typeError "IndexedForm index must be of type str")

/-- Modelled from the spec: IndexedOptionForm.__init__ is not under src/;
spec §3 and §4.1 require the index to be a string drawn from the signed
index-dtype enumeration. -/
def indexedOptionFormMk (index : JVal) (content : Form)
    (ps : Params) (fk : Option String) : Except FormError Form :=
  match index with
  | .str i =>
    if optionIndexDtypes.contains i then .ok (.indexedoption i content ps fk)
    else .error (.typeError "IndexedOptionForm index must be a signed index dtype")
  | _ => .error (.typeError "IndexedOptionForm index must be of type str")

/-- Modelled from the spec: BitMaskedForm.__init__ is not under src/; it is
modelled on the sibling source constructor ByteMaskedForm.__init__, which
checks only the Python types of its arguments (the spec names no dtype
enumeration for the packed mask). -/
def bitMaskedFormMk (mask : JVal) (content : Form) (valid_when lsb_order : JVal)
    (ps : Params) (fk : Option String) : Except FormError Form :=
  match mask with
  | .str m =>
    match valid_when, lsb_order with
    | .bool b, .bool lo => .ok (.bitmasked m content b lo ps fk)
    | _, _ => .error (.typeError "BitMaskedForm valid_when and lsb_order must be bool")
  | _ => .error (.typeError "BitMaskedForm mask must be of type str")

/-- Modelled from the spec: UnionForm.__init__ is not under src/; spec §3
restricts the tag/index dtype pair to an 8-bit signed tag and an index from
the index-dtype enumeration. -/
def unionFormMk (tags index : JVal) (contents : List Form)
    (ps : Params) (fk : Option String) : Except FormError Form :=
  match tags, index with
  | .str t, .str i =>
    if t == "i8" && indexDtypes.contains i then
      .ok (.union t i contents ps fk)
    else .error (.typeError "UnionForm tags must be i8 and index an index dtype")
  | _, _ => .error (.typeError "UnionForm tags and index must be of type str")

/-- Modelled from the spec: UnionForm._union_of_optionarrays is not under
src/; spec §4.2 rule 1 distributes the option wrapper across the union's
contents, producing a union of option arrays carrying the requested index
dtype and the caller's parameters; contents that are already option forms
are kept, the others are wrapped in an Unmasked node. -/
def unionOfOptionarrays (index : String) (ps : Params) : Form → Form
  | .union t _ cs _ fk =>
    .union t index
      (cs.map fun c => if isOptionForm c then c else .unmasked c none none)
      ps fk
  | f => f

/-- Modelled from the spec: IndexedOptionForm.simplified is not under src/;
spec §4.2: if the child is a union the option is distributed into it, else
if the child is an option or index form the two layers merge into a single
IndexedOption node with a 64-bit signed index, else the requested node is
built directly. -/
def indexedOptionSimplified (index : String) (content : Form)
    (ps : Params) (fk : Option String) : Form :=
  if isUnionForm content then unionOfOptionarrays index ps content
  else if isIndexedForm content || isOptionForm content then
    .indexedoption "i64" ((formContent content).getD content) ps none
  else .indexedoption index content ps fk

/-- Embedding of ByteMaskedForm.simplified (bytemaskedform.py lines 84-105):
a union child absorbs the option wrapper via _union_of_optionarrays with a
64-bit signed index; an indexed or option child is merged through
IndexedOptionForm.simplified with a 64-bit signed index (no form_key); any
other child is stored in a plain ByteMasked node. -/
def byteMaskedSimplified (mask : String) (content : Form) (valid_when : Bool)
    (ps : Params) (fk : Option String) : Form :=
  if isUnionForm content then unionOfOptionarrays "i64" ps content
  else if isIndexedForm content || isOptionForm content then
    indexedOptionSimplified "i64" content ps none
  else .bytemasked mask content valid_when ps fk

/-- Claim C2: ByteMaskedForm.simplified applies the canonical collapses in
order -- a union child absorbs the option wrapper (yielding a union of
option arrays with a 64-bit signed index), an indexed or option child is
merged through IndexedOptionForm.simplified with a 64-bit signed index, and
any other child yields a plain ByteMasked node; the plain constructor never
collapses and stores its content unchanged. -/
theorem claim_C2_bytemasked_simplified :
    (∀ (m : String) (c : Form) (vw : Bool) (ps : Params) (fk : Option String),
       isUnionForm c = true →
         byteMaskedSimplified m c vw ps fk = unionOfOptionarrays "i64" ps c)
    ∧ (∀ (m : String) (t i : String) (cs : List Form) (ps' : Params) (fk' : Option String)
         (vw : Bool) (ps : Params) (fk : Option String),
         byteMaskedSimplified m (.union t i cs ps' fk') vw ps fk
           = .union t "i64"
               (cs.map fun c => if isOptionForm c then c else .unmasked c none none)
               ps fk')
    ∧ (∀ (m : String) (c : Form) (vw : Bool) (ps : Params) (fk : Option String),
         isUnionForm c = false → (isIndexedForm c || isOptionForm c) = true →
           byteMaskedSimplified m c vw ps fk = indexedOptionSimplified "i64" c ps none)
    ∧ (∀ (m : String) (c : Form) (vw : Bool) (ps : Params) (fk : Option String),
         isUnionForm c = false → (isIndexedForm c || isOptionForm c) = false →
           byteMaskedSimplified m c vw ps fk = .bytemasked m c vw ps fk)
    ∧ (∀ (m : String) (c : Form) (vw : Bool) (ps : Params) (fk : Option String),
         byteMaskedFormMk (.str m) c (.bool vw) ps fk
           = .ok (.bytemasked m c vw ps fk)) := by
  refine ⟨?_, ?_, ?_, ?_, ?_⟩
  · intro m c vw ps fk hu
    simp [byteMaskedSimplified, hu]
  · intro m t i cs ps' fk' vw ps fk
    simp [byteMaskedSimplified, isUnionForm, unionOfOptionarrays]
  · intro m c vw ps fk hu hio
    simp [byteMaskedSimplified, hu, hio]
  · intro m c vw ps fk hu hio
    simp [byteMaskedSimplified, hu, hio]
  · intro m c vw ps fk
    rfl

/-- Witness for claim C2: the three dispatch branches of
ByteMaskedForm.simplified evaluated at concrete children (a union, an
indexed-option, and a numpy leaf). -/
theorem claim_C2_bytemasked_simplified_witness :
    byteMaskedSimplified "i8" (.union "i8" "i64" [.empty none none] none none) true none none
      = unionOfOptionarrays "i64" none (.union "i8" "i64" [.empty none none] none none)
    ∧ byteMaskedSimplified "i8" (.indexedoption "i64" (.empty none none) none none) true none none
      = indexedOptionSimplified "i64" (.indexedoption "i64" (.empty none none) none none) none none
    ∧ byteMaskedSimplified "i8" (.numpy "int64" [] none none) true none none
      = .bytemasked "i8" (.numpy "int64" [] none none) true none none
    ∧ byteMaskedFormMk (.str "i8") (.numpy "int64" [] none none) (.bool true) none none
      = .ok (.bytemasked "i8" (.numpy "int64" [] none none) true none none) := by
  refine ⟨?_, ?_, ?_, ?_⟩
  · exact claim_C2_bytemasked_simplified.1 "i8" _ true none none rfl
  · exact claim_C2_bytemasked_simplified.2.2.1 "i8" _ true none none rfl rfl
  · exact claim_C2_bytemasked_simplified.2.2.2.1 "i8" _ true none none rfl rfl
  · exact claim_C2_bytemasked_simplified.2.2.2.2 "i8" _ true none none

/-- Counterexample to claim C3: constructing a Record form whose field list
is longer than its contents list, and a ByteMasked form whose mask string
lies outside the index-dtype enumeration, both succeed -- the constructors
raise no error. -/
theorem claim_C3_counterexample :
    recordFormMk [.numpy "int64" [] none none] (some ["x", "y"]) none none
      = .ok (.record [.numpy "int64" [] none none] (some ["x", "y"]) none none)
    ∧ byteMaskedFormMk (.str "i3") (.numpy "int64" [] none none) (.bool true) none none
      = .ok (.bytemasked "i3" (.numpy "int64" [] none none) true none none) :=
  ⟨rfl, rfl⟩

/-- Claim C3 amended: RecordForm.__init__ and ByteMaskedForm.__init__ check
only the Python types of their arguments; a field-name list whose length
differs from the contents list and a mask dtype string outside the
index-dtype enumeration are accepted at construction without error. -/
theorem claim_C3_construction_type_checks_only :
    (∀ (cs : List Form) (fs : Option (List String)) (ps : Params) (fk : Option String),
       recordFormMk cs fs ps fk = .ok (.record cs fs ps fk))
    ∧ (∀ (m : String) (c : Form) (vw : Bool) (ps : Params) (fk : Option String),
       byteMaskedFormMk (.str m) c (.bool vw) ps fk = .ok (.bytemasked m c vw ps fk)) :=
  ⟨fun _ _ _ _ => rfl, fun _ _ _ _ _ => rfl⟩

/-- JSON value of a non-negative size (inner_shape entries). -/
def natJson (n : Nat) : JVal := .num n

/-- JSON value emitted for a form_key field. -/
def formKeyJson : Option String → JVal
  | none => .null
  | some s => .str s

/-- JSON value emitted for a Regular size field (null for unknown). -/
def sizeJson : Option Nat → JVal
  | none => .null
  | some n => .num n

/-- Parameters rendered as a JSON object (the parameters property
materializes an empty dict for None). -/
def paramsToJson (ps : Params) : List (String × JVal) :=
  (ps.getD []).map fun kv => (kv.1, .str kv.2)

/-- Embedding of Form._to_dict_extra (form.py lines 339-344): parameters are
emitted when verbose or non-empty (as the materialized parameters property),
form_key when verbose or non-null. -/
def toDictExtra (verbose : Bool) (ps : Params) (fk : Option String)
    (out : List (String × JVal)) : List (String × JVal) :=
  let out1 :=
    if verbose || !(ps.getD []).isEmpty then
      out ++ [("parameters", .obj (paramsToJson ps))]
    else out
  if verbose || fk.isSome then out1 ++ [("form_key", formKeyJson fk)] else out1

mutual
/-- Embedding of the _to_dict_part methods (to_dict with verbose flag,
form.py lines 336-344 for the shared extras).  ByteMasked follows
bytemaskedform.py lines 120-129; Record follows recordform.py lines 138-149
(a fielded record serializes its contents as a name-to-content mapping, a
tuple record as a list); the remaining variants are modelled from the spec
(§4.4: a class discriminator plus the variant's physical fields, children
serialized recursively). -/
def toDictPart (f : Form) (verbose toplevel : Bool) : JVal :=
  match f with
  | .numpy p sh ps fk =>
    if !verbose && !toplevel && (ps.getD []).isEmpty && fk.isNone && sh.isEmpty then
      .str p
    else
      .obj (toDictExtra verbose ps fk
        ([("class", .str "NumpyArray"), ("primitive", .str p)]
          ++ (if verbose || !sh.isEmpty then
                [("inner_shape", .arr (sh.map natJson))]
              else [])))
  | .empty ps fk => .obj (toDictExtra verbose ps fk [("class", .str "EmptyArray")])
  | .regular c sz ps fk =>
    .obj (toDictExtra verbose ps fk
      [("class", .str "RegularArray"), ("content", toDictPart c verbose false),
       ("size", sizeJson sz)])
  | .list s t c ps fk =>
    .obj (toDictExtra verbose ps fk
      [("class", .str "ListArray"), ("starts", .str s), ("stops", .str t),
       ("content", toDictPart c verbose false)])
  | .listoffset o c ps fk =>
    .obj (toDictExtra verbose ps fk
      [("class", .str "ListOffsetArray"), ("offsets", .str o),
       ("content", toDictPart c verbose false)])
  | .record cs fs ps fk =>
    .obj (toDictExtra verbose ps fk
      [("class", .str "RecordArray"),
       ("contents",
        match fs with
        | some a => .obj (a.zip (toDictList cs verbose))
        | none => .arr (toDictList cs verbose))])
  | .indexed i c ps fk =>
    .obj (toDictExtra verbose ps fk
      [("class", .str "IndexedArray"), ("index", .str i),
       ("content", toDictPart c verbose false)])
  | .indexedoption i c ps fk =>
    .obj (toDictExtra verbose ps fk
      [("class", .str "IndexedOptionArray"), ("index", .str i),
       ("content", toDictPart c verbose false)])
  | .bytemasked m c vw ps fk =>
    .obj (toDictExtra verbose ps fk
      [("class", .str "ByteMaskedArray"), ("mask", .str m), ("valid_when", .bool vw),
       ("content", toDictPart c verbose false)])
  | .bitmasked m c vw lo ps fk =>
    .obj (toDictExtra verbose ps fk
      [("class", .str "BitMaskedArray"), ("mask", .str m), ("valid_when", .bool vw),
       ("lsb_order", .bool lo), ("content", toDictPart c verbose false)])
  | .unmasked c ps fk =>
    .obj (toDictExtra verbose ps fk
      [("class", .str "UnmaskedArray"), ("content", toDictPart c verbose false)])
  | .union t i cs ps fk =>
    .obj (toDictExtra verbose ps fk
      [("class", .str "UnionArray"), ("tags", .str t), ("index", .str i),
       ("contents", .arr (toDictList cs verbose))])
termination_by sizeOf f
decreasing_by
  all_goals simp
  all_goals omega

/-- Children of a composite serialized in order (each with toplevel False). -/
def toDictList (cs : List Form) (verbose : Bool) : List JVal :=
  match cs with
  | [] => []
  | c :: rest => toDictPart c verbose false :: toDictList rest verbose
termination_by sizeOf cs
decreasing_by
  all_goals simp
  all_goals omega
end

/-- Embedding of Form.to_dict (form.py lines 336-337). -/
def toDict (f : Form) (verbose : Bool) : JVal := toDictPart f verbose true

/-- Python repr of a string (single quotes; escaping is not modelled as no
claim exercises quotes inside tags). -/
def pyStrRepr (s : String) : String := "\x27" ++ s ++ "\x27"

/-- Python repr of a class-tag value; only the string case is exercised by
the claims, the container cases are rendered coarsely. -/
def jvalRepr : JVal → String
  | .null => "None"
  | .bool true => "True"
  | .bool false => "False"
  | .num n => toString n
  | .str s => pyStrRepr s
  | .arr _ => "[...]"
  | .obj _ => "\x7b...\x7d"

/-- Embedding of the parameters check of Form._init (form.py lines 258-266):
parameters must be a dict or None.  Parameter values are modelled as
strings, so a non-string value is rejected here, where Python would accept
any JSON value; every parameter handled by the claims is string-valued. -/
def paramsOfJson : List (String × JVal) → Option (List (String × String))
  | [] => some []
  | (k, .str v) :: rest => (paramsOfJson rest).map (fun l => (k, v) :: l)
  | _ => none

/-- Reading the parameters entry of a payload (absent or null means None). -/
def readParams : Option JVal → Except FormError Params
  | none => .ok none
  | some .null => .ok none
  | some (.obj kvs) =>
    match paramsOfJson kvs with
    | some l => .ok (some l)
    | none => .error (.typeError "parameters values must be strings")
  | some _ => .error (.typeError "parameters must be of type dict or None")

/-- Embedding of the form_key check of Form._init (form.py lines 267-274):
form_key must be a string or None; absent or null means None. -/
def readFormKey : Option JVal → Except FormError (Option String)
  | none => .ok none
  | some .null => .ok none
  | some (.str s) => .ok (some s)
  | some _ => .error (.typeError "form_key must be of type string or None")

/-- Shared tail of every from_dict branch: validate parameters and form_key
(Form._init) and hand them to the constructor continuation. -/
def withParamsKey (pq fq : Option JVal)
    (k : Params → Option String → Except FormError Form) : Except FormError Form :=
  match readParams pq with
  | .error e => .error e
  | .ok ps =>
    match readFormKey fq with
    | .error e => .error e
    | .ok fk => k ps fk

/-- Inner-shape entries read as non-negative integers. -/
def readShape : List JVal → Except FormError (List Nat)
  | [] => .ok []
  | .num n :: rest =>
    if n < 0 then .error (.typeError "inner_shape entries must be non-negative integers")
    else (readShape rest).map (fun l => n.toNat :: l)
  | _ :: _ => .error (.typeError "inner_shape entries must be non-negative integers")

/-- Size entry of a RegularArray payload: null means the unknown-length
sentinel (form.py line 54). -/
def readSize : JVal → Except FormError (Option Nat)
  | .null => .ok none
  | .num n =>
    if n < 0 then .error (.valueError "RegularForm size must be non-negative or unknown")
    else .ok (some n.toNat)
  | _ => .error (.typeError "RegularForm size must be an integer or None")

/-- Field names of a new-style RecordArray payload: null means tuple mode. -/
def readFieldNames : List JVal → Except FormError (List String)
  | [] => .ok []
  | .str s :: rest => (readFieldNames rest).map (fun l => s :: l)
  | _ :: _ => .error (.typeError "RecordForm fields must be strings")

/-- Fields entry of a new-style RecordArray payload. -/
def readFields : JVal → Except FormError (Option (List String))
  | .null => .ok none
  | .arr xs => (readFieldNames xs).map some
  | _ => .error (.typeError "RecordForm fields must be a list or None")

/-- NumpyArray branch tail (form.py lines 41-46): inner_shape defaults to an
empty list, then the NumpyForm constructor runs. -/
def numpyCore (pj : JVal) (shj pq fq : Option JVal) : Except FormError Form :=
  match (match shj with
         | none => Except.ok []
         | some (.arr xs) => readShape xs
         | some _ => Except.error (FormError.typeError "inner_shape must be a list")) with
  | .error e => .error e
  | .ok sh => withParamsKey pq fq (numpyFormMk pj sh)

/-- RegularArray branch tail (form.py lines 51-57). -/
def regularCore (r : Except FormError Form) (szj pq fq : Option JVal) : Except FormError Form :=
  match r with
  | .error e => .error e
  | .ok c =>
    match (match szj with
           | none => Except.error (FormError.keyError "size")
           | some sj => readSize sj) with
    | .error e => .error e
    | .ok sz => withParamsKey pq fq (fun ps fk => .ok (.regular c sz ps fk))

/-- ListArray branch tail (form.py lines 59-66). -/
def listCore (sj tj : JVal) (r : Except FormError Form) (pq fq : Option JVal) : Except FormError Form :=
  match r with
  | .error e => .error e
  | .ok c => withParamsKey pq fq (listFormMk sj tj c)

/-- ListOffsetArray branch tail (form.py lines 68-79). -/
def listOffsetCore (oj : JVal) (r : Except FormError Form) (pq fq : Option JVal) : Except FormError Form :=
  match r with
  | .error e => .error e
  | .ok c => withParamsKey pq fq (listOffsetFormMk oj c)

/-- IndexedArray branch tail (form.py lines 108-119). -/
def indexedCore (ij : JVal) (r : Except FormError Form) (pq fq : Option JVal) : Except FormError Form :=
  match r with
  | .error e => .error e
  | .ok c => withParamsKey pq fq (indexedFormMk ij c)

/-- IndexedOptionArray branch tail (form.py lines 121-131). -/
def indexedOptionCore (ij : JVal) (r : Except FormError Form) (pq fq : Option JVal) : Except FormError Form :=
  match r with
  | .error e => .error e
  | .ok c => withParamsKey pq fq (indexedOptionFormMk ij c)

/-- ByteMaskedArray branch tail (form.py lines 133-140): the valid_when entry
is read after the content is deserialized (constructor-argument order). -/
def byteMaskedCore (mj : JVal) (r : Except FormError Form) (vwq pq fq : Option JVal) : Except FormError Form :=
  match r with
  | .error e => .error e
  | .ok c =>
    match vwq with
    | none => .error (.keyError "valid_when")
    | some vj => withParamsKey pq fq (byteMaskedFormMk mj c vj)

/-- BitMaskedArray branch tail (form.py lines 142-150). -/
def bitMaskedCore (mj : JVal) (r : Except FormError Form) (vwq loq pq fq : Option JVal) : Except FormError Form :=
  match r with
  | .error e => .error e
  | .ok c =>
    match vwq with
    | none => .error (.keyError "valid_when")
    | some vj =>
      match loq with
      | none => .error (.keyError "lsb_order")
      | some lj => withParamsKey pq fq (bitMaskedFormMk mj c vj lj)

/-- UnmaskedArray branch tail (form.py lines 152-157). -/
def unmaskedCore (r : Except FormError Form) (pq fq : Option JVal) : Except FormError Form :=
  match r with
  | .error e => .error e
  | .ok c => withParamsKey pq fq (fun ps fk => .ok (.unmasked c ps fk))

/-- UnionArray branch tail (form.py lines 159-171). -/
def unionCore (tj ij : JVal) (rs : Except FormError (List Form)) (pq fq : Option JVal) : Except FormError Form :=
  match rs with
  | .error e => .error e
  | .ok cs => withParamsKey pq fq (unionFormMk tj ij cs)

/-- New-style RecordArray branch tail (form.py lines 83-89): contents parsed
first, then the fields entry is read, then the constructor runs. -/
def recordNewCore (fj : JVal) (rs : Except FormError (List Form)) (pq fq : Option JVal) : Except FormError Form :=
  match rs with
  | .error e => .error e
  | .ok cs =>
    match readFields fj with
    | .error e => .error e
    | .ok fs => withParamsKey pq fq (recordFormMk cs fs)

/-- Old-style mapping RecordArray branch tail (form.py lines 91-96): field
names and contents are collected from the mapping in insertion order. -/
def recordOldCore (fields : List String) (rs : Except FormError (List Form)) (pq fq : Option JVal) : Except FormError Form :=
  match rs with
  | .error e => .error e
  | .ok cs => withParamsKey pq fq (recordFormMk cs (some fields))

/-- Old-style tuple RecordArray branch tail (form.py lines 97-100): no field
names, fields is None. -/
def recordTupleCore (rs : Except FormError (List Form)) (pq fq : Option JVal) : Except FormError Form :=
  match rs with
  | .error e => .error e
  | .ok cs => withParamsKey pq fq (recordFormMk cs none)

/-- NumpyArray branch of from_dict (form.py lines 41-46). -/
def parseNumpy (kvs : List (String × JVal)) : Except FormError Form :=
  match kvs.lookup "primitive" with
  | none => .error (.keyError "primitive")
  | some pj =>
    numpyCore pj (kvs.lookup "inner_shape") (kvs.lookup "parameters") (kvs.lookup "form_key")

/-- EmptyArray branch of from_dict (form.py lines 48-49). -/
def parseEmpty (kvs : List (String × JVal)) : Except FormError Form :=
  withParamsKey (kvs.lookup "parameters") (kvs.lookup "form_key")
    (fun ps fk => .ok (.empty ps fk))

mutual
/-- Embedding of form.from_dict (form.py lines 32-183): a bare string is a
Numpy primitive; a mapping dispatches on its class tag, accepting the
legacy width-qualified spellings; the VirtualArray tag and unrecognized
tags raise value errors.  Non-string, non-mapping input fails the leading
assertions. -/
def fromDict (j : JVal) : Except FormError Form :=
  match j with
  | .str s => numpyFormMk (.str s) [] none none
  | .obj kvs =>
    match kvs.lookup "class" with
    | none => .error (.keyError "class")
    | some (.str c) => dispatchTag c kvs
    | some .null => .error (.valueError ("input class: " ++ jvalRepr .null ++ " was not recognised"))
    | some (.bool b) => .error (.valueError ("input class: " ++ jvalRepr (.bool b) ++ " was not recognised"))
    | some (.num n) => .error (.valueError ("input class: " ++ jvalRepr (.num n) ++ " was not recognised"))
    | some (.arr xs) => .error (.valueError ("input class: " ++ jvalRepr (.arr xs) ++ " was not recognised"))
    | some (.obj kvs2) => .error (.valueError ("input class: " ++ jvalRepr (.obj kvs2) ++ " was not recognised"))
  | .null => .error .assertError
  | .bool b => .error .assertError
  | .num n => .error .assertError
  | .arr xs => .error .assertError
termination_by 3 * sizeOf j + 2
decreasing_by
  all_goals simp
  all_goals omega

/-- Class-tag dispatch of from_dict (form.py lines 41-183): each current or
legacy width-qualified spelling selects its branch; the VirtualArray tag and
unrecognized tags raise value errors naming the tag. -/
def dispatchTag (c : String) (kvs : List (String × JVal)) : Except FormError Form :=
  if c = "NumpyArray" then parseNumpy kvs
  else if c = "EmptyArray" then parseEmpty kvs
  else if c = "RegularArray" then parseRegular kvs
  else if c ∈ ["ListArray", "ListArray32", "ListArrayU32", "ListArray64"] then
    parseListDict kvs
  else if c ∈ ["ListOffsetArray", "ListOffsetArray32", "ListOffsetArrayU32",
               "ListOffsetArray64"] then
    parseListOffset kvs
  else if c = "RecordArray" then parseRecord kvs
  else if c ∈ ["IndexedArray", "IndexedArray32", "IndexedArrayU32",
               "IndexedArray64"] then
    parseIndexed kvs
  else if c ∈ ["IndexedOptionArray", "IndexedOptionArray32",
               "IndexedOptionArray64"] then
    parseIndexedOption kvs
  else if c = "ByteMaskedArray" then parseByteMasked kvs
  else if c = "BitMaskedArray" then parseBitMasked kvs
  else if c = "UnmaskedArray" then parseUnmasked kvs
  else if c ∈ ["UnionArray", "UnionArray8_32", "UnionArray8_U32",
               "UnionArray8_64"] then
    parseUnion kvs
  else if c = "VirtualArray" then
    .error (.valueError "Awkward 1.x VirtualArrays are not supported")
  else .error (.valueError ("input class: " ++ pyStrRepr c ++ " was not recognised"))
termination_by 3 * sizeOf kvs + 1
decreasing_by
  all_goals simp
  all_goals omega

/-- RegularArray branch of from_dict (form.py lines 51-57). -/
def parseRegular (kvs : List (String × JVal)) : Except FormError Form :=
  match hc : kvs.lookup "content" with
  | none => .error (.keyError "content")
  | some cj =>
    regularCore (fromDict cj) (kvs.lookup "size") (kvs.lookup "parameters")
      (kvs.lookup "form_key")
termination_by 3 * sizeOf kvs
decreasing_by
  all_goals (have hb := lookup_mem_sizeOf hc; simp at hb; omega)

/-- ListArray branch of from_dict (form.py lines 59-66). -/
def parseListDict (kvs : List (String × JVal)) : Except FormError Form :=
  match kvs.lookup "starts" with
  | none => .error (.keyError "starts")
  | some sj =>
    match kvs.lookup "stops" with
    | none => .error (.keyError "stops")
    | some tj =>
      match hc : kvs.lookup "content" with
      | none => .error (.keyError "content")
      | some cj =>
        listCore sj tj (fromDict cj) (kvs.lookup "parameters") (kvs.lookup "form_key")
termination_by 3 * sizeOf kvs
decreasing_by
  all_goals (have hb := lookup_mem_sizeOf hc; simp at hb; omega)

/-- ListOffsetArray branch of from_dict (form.py lines 68-79). -/
def parseListOffset (kvs : List (String × JVal)) : Except FormError Form :=
  match kvs.lookup "offsets" with
  | none => .error (.keyError "offsets")
  | some oj =>
    match hc : kvs.lookup "content" with
    | none => .error (.keyError "content")
    | some cj =>
      listOffsetCore oj (fromDict cj) (kvs.lookup "parameters") (kvs.lookup "form_key")
termination_by 3 * sizeOf kvs
decreasing_by
  all_goals (have hb := lookup_mem_sizeOf hc; simp at hb; omega)

/-- RecordArray branch of from_dict (form.py lines 81-106): new-style
payloads carry a fields entry and a contents list (a mapping is rejected);
without a fields entry, a mapping of contents is the old named style and a
list of contents the old tuple style. -/
def parseRecord (kvs : List (String × JVal)) : Except FormError Form :=
  match kvs.lookup "fields" with
  | some fj =>
    match hc : kvs.lookup "contents" with
    | none => .error (.keyError "contents")
    | some (.obj _) =>
      .error (.typeError "new-style RecordForm contents must not be mappings")
    | some (.arr xs) =>
      recordNewCore fj (fromDictItems xs) (kvs.lookup "parameters")
        (kvs.lookup "form_key")
    | some _ => .error (.typeError "RecordForm contents must be iterable")
  | none =>
    match hc : kvs.lookup "contents" with
    | none => .error (.keyError "contents")
    | some (.obj pr) =>
      recordOldCore (pr.map Prod.fst) (fromDictPairs pr) (kvs.lookup "parameters")
        (kvs.lookup "form_key")
    | some (.arr xs) =>
      recordTupleCore (fromDictItems xs) (kvs.lookup "parameters")
        (kvs.lookup "form_key")
    | some _ => .error (.typeError "RecordForm contents must be iterable")
termination_by 3 * sizeOf kvs
decreasing_by
  all_goals (have hb := lookup_mem_sizeOf hc; simp at hb; omega)

/-- IndexedArray branch of from_dict (form.py lines 108-119). -/
def parseIndexed (kvs : List (String × JVal)) : Except FormError Form :=
  match kvs.lookup "index" with
  | none => .error (.keyError "index")
  | some ij =>
    match hc : kvs.lookup "content" with
    | none => .error (.keyError "content")
    | some cj =>
      indexedCore ij (fromDict cj) (kvs.lookup "parameters") (kvs.lookup "form_key")
termination_by 3 * sizeOf kvs
decreasing_by
  all_goals (have hb := lookup_mem_sizeOf hc; simp at hb; omega)

/-- IndexedOptionArray branch of from_dict (form.py lines 121-131). -/
def parseIndexedOption (kvs : List (String × JVal)) : Except FormError Form :=
  match kvs.lookup "index" with
  | none => .error (.keyError "index")
  | some ij =>
    match hc : kvs.lookup "content" with
    | none => .error (.keyError "content")
    | some cj =>
      indexedOptionCore ij (fromDict cj) (kvs.lookup "parameters")
        (kvs.lookup "form_key")
termination_by 3 * sizeOf kvs
decreasing_by
  all_goals (have hb := lookup_mem_sizeOf hc; simp at hb; omega)

/-- ByteMaskedArray branch of from_dict (form.py lines 133-140). -/
def parseByteMasked (kvs : List (String × JVal)) : Except FormError Form :=
  match kvs.lookup "mask" with
  | none => .error (.keyError "mask")
  | some mj =>
    match hc : kvs.lookup "content" with
    | none => .error (.keyError "content")
    | some cj =>
      byteMaskedCore mj (fromDict cj) (kvs.lookup "valid_when")
        (kvs.lookup "parameters") (kvs.lookup "form_key")
termination_by 3 * sizeOf kvs
decreasing_by
  all_goals (have hb := lookup_mem_sizeOf hc; simp at hb; omega)

/-- BitMaskedArray branch of from_dict (form.py lines 142-150). -/
def parseBitMasked (kvs : List (String × JVal)) : Except FormError Form :=
  match kvs.lookup "mask" with
  | none => .error (.keyError "mask")
  | some mj =>
    match hc : kvs.lookup "content" with
    | none => .error (.keyError "content")
    | some cj =>
      bitMaskedCore mj (fromDict cj) (kvs.lookup "valid_when")
        (kvs.lookup "lsb_order") (kvs.lookup "parameters") (kvs.lookup "form_key")
termination_by 3 * sizeOf kvs
decreasing_by
  all_goals (have hb := lookup_mem_sizeOf hc; simp at hb; omega)

/-- UnmaskedArray branch of from_dict (form.py lines 152-157). -/
def parseUnmasked (kvs : List (String × JVal)) : Except FormError Form :=
  match hc : kvs.lookup "content" with
  | none => .error (.keyError "content")
  | some cj =>
    unmaskedCore (fromDict cj) (kvs.lookup "parameters") (kvs.lookup "form_key")
termination_by 3 * sizeOf kvs
decreasing_by
  all_goals (have hb := lookup_mem_sizeOf hc; simp at hb; omega)

/-- UnionArray branch of from_dict (form.py lines 159-171). -/
def parseUnion (kvs : List (String × JVal)) : Except FormError Form :=
  match kvs.lookup "tags" with
  | none => .error (.keyError "tags")
  | some tj =>
    match kvs.lookup "index" with
    | none => .error (.keyError "index")
    | some ij =>
      match hc : kvs.lookup "contents" with
      | none => .error (.keyError "contents")
      | some (.arr xs) =>
        unionCore tj ij (fromDictItems xs) (kvs.lookup "parameters")
          (kvs.lookup "form_key")
      | some _ => .error (.typeError "UnionForm contents must be iterable")
termination_by 3 * sizeOf kvs
decreasing_by
  all_goals (have hb := lookup_mem_sizeOf hc; simp at hb; omega)

/-- Children of a contents list deserialized in order. -/
def fromDictItems (xs : List JVal) : Except FormError (List Form) :=
  match xs with
  | [] => .ok []
  | x :: rest =>
    match fromDict x with
    | .error e => .error e
    | .ok f =>
      match fromDictItems rest with
      | .error e => .error e
      | .ok fs => .ok (f :: fs)
termination_by 3 * sizeOf xs + 2
decreasing_by
  all_goals simp
  all_goals omega

/-- Values of an old-style mapping of contents deserialized in insertion
order. -/
def fromDictPairs (pr : List (String × JVal)) : Except FormError (List Form) :=
  match pr with
  | [] => .ok []
  | kv :: rest =>
    match fromDict kv.2 with
    | .error e => .error e
    | .ok f =>
      match fromDictPairs rest with
      | .error e => .error e
      | .ok fs => .ok (f :: fs)
termination_by 3 * sizeOf pr + 2
decreasing_by
  all_goals simp
  all_goals try omega
  all_goals (cases kv; simp; omega)
end

theorem fromDict_str (s : String) : fromDict (.str s) = numpyFormMk (.str s) [] none none := by
  simp only [fromDict]

theorem fromDict_obj_class {kvs : List (String × JVal)} {c : String}
    (h : kvs.lookup "class" = some (.str c)) :
    fromDict (.obj kvs) = dispatchTag c kvs := by
  simp only [fromDict, h]

theorem fromDict_obj_class_nonstr {kvs : List (String × JVal)} {v : JVal}
    (h : kvs.lookup "class" = some v) (hv : ∀ s, v ≠ .str s) :
    fromDict (.obj kvs) = .error (.valueError ("input class: " ++ jvalRepr v ++ " was not recognised")) := by
  simp only [fromDict, h]
  cases v with
  | str s => exact absurd rfl (hv s)
  | null => rfl
  | bool b => rfl
  | num n => rfl
  | arr xs => rfl
  | obj kvs2 => rfl

theorem parseRegular_eq {kvs : List (String × JVal)} {cj : JVal}
    (hc : kvs.lookup "content" = some cj) :
    parseRegular kvs
      = regularCore (fromDict cj) (kvs.lookup "size") (kvs.lookup "parameters")
          (kvs.lookup "form_key") := by
  simp only [parseRegular]
  split
  · rename_i hw
    rw [hc] at hw
    cases hw
  · rename_i cj2 hw
    rw [hc] at hw
    cases hw
    rfl

theorem parseListDict_eq {kvs : List (String × JVal)} {sj tj cj : JVal}
    (hs : kvs.lookup "starts" = some sj) (ht : kvs.lookup "stops" = some tj)
    (hc : kvs.lookup "content" = some cj) :
    parseListDict kvs
      = listCore sj tj (fromDict cj) (kvs.lookup "parameters")
          (kvs.lookup "form_key") := by
  simp only [parseListDict, hs, ht]
  split
  · rename_i hw
    rw [hc] at hw
    cases hw
  · rename_i cj2 hw
    rw [hc] at hw
    cases hw
    rfl

theorem parseListOffset_eq {kvs : List (String × JVal)} {oj cj : JVal}
    (ho : kvs.lookup "offsets" = some oj) (hc : kvs.lookup "content" = some cj) :
    parseListOffset kvs
      = listOffsetCore oj (fromDict cj) (kvs.lookup "parameters")
          (kvs.lookup "form_key") := by
  simp only [parseListOffset, ho]
  split
  · rename_i hw
    rw [hc] at hw
    cases hw
  · rename_i cj2 hw
    rw [hc] at hw
    cases hw
    rfl

theorem parseIndexed_eq {kvs : List (String × JVal)} {ij cj : JVal}
    (hi : kvs.lookup "index" = some ij) (hc : kvs.lookup "content" = some cj) :
    parseIndexed kvs
      = indexedCore ij (fromDict cj) (kvs.lookup "parameters")
          (kvs.lookup "form_key") := by
  simp only [parseIndexed, hi]
  split
  · rename_i hw
    rw [hc] at hw
    cases hw
  · rename_i cj2 hw
    rw [hc] at hw
    cases hw
    rfl

theorem parseIndexedOption_eq {kvs : List (String × JVal)} {ij cj : JVal}
    (hi : kvs.lookup "index" = some ij) (hc : kvs.lookup "content" = some cj) :
    parseIndexedOption kvs
      = indexedOptionCore ij (fromDict cj) (kvs.lookup "parameters")
          (kvs.lookup "form_key") := by
  simp only [parseIndexedOption, hi]
  split
  · rename_i hw
    rw [hc] at hw
    cases hw
  · rename_i cj2 hw
    rw [hc] at hw
    cases hw
    rfl

theorem parseByteMasked_eq {kvs : List (String × JVal)} {mj cj : JVal}
    (hm : kvs.lookup "mask" = some mj) (hc : kvs.lookup "content" = some cj) :
    parseByteMasked kvs
      = byteMaskedCore mj (fromDict cj) (kvs.lookup "valid_when")
          (kvs.lookup "parameters") (kvs.lookup "form_key") := by
  simp only [parseByteMasked, hm]
  split
  · rename_i hw
    rw [hc] at hw
    cases hw
  · rename_i cj2 hw
    rw [hc] at hw
    cases hw
    rfl

theorem parseBitMasked_eq {kvs : List (String × JVal)} {mj cj : JVal}
    (hm : kvs.lookup "mask" = some mj) (hc : kvs.lookup "content" = some cj) :
    parseBitMasked kvs
      = bitMaskedCore mj (fromDict cj) (kvs.lookup "valid_when")
          (kvs.lookup "lsb_order") (kvs.lookup "parameters") (kvs.lookup "form_key") := by
  simp only [parseBitMasked, hm]
  split
  · rename_i hw
    rw [hc] at hw
    cases hw
  · rename_i cj2 hw
    rw [hc] at hw
    cases hw
    rfl

theorem parseUnmasked_eq {kvs : List (String × JVal)} {cj : JVal}
    (hc : kvs.lookup "content" = some cj) :
    parseUnmasked kvs
      = unmaskedCore (fromDict cj) (kvs.lookup "parameters") (kvs.lookup "form_key") := by
  simp only [parseUnmasked]
  split
  · rename_i hw
    rw [hc] at hw
    cases hw
  · rename_i cj2 hw
    rw [hc] at hw
    cases hw
    rfl

theorem parseUnion_eq {kvs : List (String × JVal)} {tj ij : JVal} {xs : List JVal}
    (htg : kvs.lookup "tags" = some tj) (hix : kvs.lookup "index" = some ij)
    (hc : kvs.lookup "contents" = some (.arr xs)) :
    parseUnion kvs
      = unionCore tj ij (fromDictItems xs) (kvs.lookup "parameters")
          (kvs.lookup "form_key") := by
  simp only [parseUnion, htg, hix]
  split
  · rename_i hw
    rw [hc] at hw
    cases hw
  · rename_i xs2 hw
    rw [hc] at hw
    cases hw
    rfl
  · rename_i other hne hw
    rw [hc] at hw
    cases hw
    exact absurd rfl (hne xs)

theorem parseRecord_new {kvs : List (String × JVal)} {fj : JVal} {xs : List JVal}
    (hf : kvs.lookup "fields" = some fj) (hc : kvs.lookup "contents" = some (.arr xs)) :
    parseRecord kvs
      = recordNewCore fj (fromDictItems xs) (kvs.lookup "parameters")
          (kvs.lookup "form_key") := by
  simp only [parseRecord, hf]
  split
  · rename_i hw
    rw [hc] at hw
    cases hw
  · rename_i pr hw
    rw [hc] at hw
    cases hw
  · rename_i xs2 hw
    rw [hc] at hw
    cases hw
    rfl
  · rename_i other hno hna hw
    rw [hc] at hw
    cases hw
    exact absurd rfl (hna xs)

theorem parseRecord_new_mapping {kvs : List (String × JVal)} {fj : JVal}
    {pr : List (String × JVal)}
    (hf : kvs.lookup "fields" = some fj) (hc : kvs.lookup "contents" = some (.obj pr)) :
    parseRecord kvs
      = .error (.typeError "new-style RecordForm contents must not be mappings") := by
  simp only [parseRecord, hf]
  split
  · rename_i hw
    rw [hc] at hw
    cases hw
  · rfl
  · rename_i xs2 hw
    rw [hc] at hw
    cases hw
  · rename_i other hno hna hw
    rw [hc] at hw
    cases hw
    exact absurd rfl (hno pr)

theorem parseRecord_old_mapping {kvs : List (String × JVal)} {pr : List (String × JVal)}
    (hf : kvs.lookup "fields" = none) (hc : kvs.lookup "contents" = some (.obj pr)) :
    parseRecord kvs
      = recordOldCore (pr.map Prod.fst) (fromDictPairs pr) (kvs.lookup "parameters")
          (kvs.lookup "form_key") := by
  simp only [parseRecord, hf]
  split
  · rename_i hw
    rw [hc] at hw
    cases hw
  · rename_i pr2 hw
    rw [hc] at hw
    cases hw
    rfl
  · rename_i xs2 hw
    rw [hc] at hw
    cases hw
  · rename_i other hno hna hw
    rw [hc] at hw
    cases hw
    exact absurd rfl (hno pr)

theorem parseRecord_old_tuple {kvs : List (String × JVal)} {xs : List JVal}
    (hf : kvs.lookup "fields" = none) (hc : kvs.lookup "contents" = some (.arr xs)) :
    parseRecord kvs
      = recordTupleCore (fromDictItems xs) (kvs.lookup "parameters")
          (kvs.lookup "form_key") := by
  simp only [parseRecord, hf]
  split
  · rename_i hw
    rw [hc] at hw
    cases hw
  · rename_i pr2 hw
    rw [hc] at hw
    cases hw
  · rename_i xs2 hw
    rw [hc] at hw
    cases hw
    rfl
  · rename_i other hno hna hw
    rw [hc] at hw
    cases hw
    exact absurd rfl (hna xs)

theorem fromDictItems_nil : fromDictItems [] = .ok [] := by
  simp only [fromDictItems]

theorem fromDictItems_cons (x : JVal) (rest : List JVal) :
    fromDictItems (x :: rest)
      = (match fromDict x with
         | .error e => .error e
         | .ok f =>
           match fromDictItems rest with
           | .error e => .error e
           | .ok fs => .ok (f :: fs)) := by
  simp only [fromDictItems]

theorem fromDictPairs_nil : fromDictPairs [] = .ok [] := by
  simp only [fromDictPairs]

theorem fromDictPairs_cons (kv : String × JVal) (rest : List (String × JVal)) :
    fromDictPairs (kv :: rest)
      = (match fromDict kv.2 with
         | .error e => .error e
         | .ok f =>
           match fromDictPairs rest with
           | .error e => .error e
           | .ok fs => .ok (f :: fs)) := by
  simp only [fromDictPairs]

theorem dispatchTag_NumpyArray (kvs : List (String × JVal)) :
    dispatchTag "NumpyArray" kvs = parseNumpy kvs := by
  simp [dispatchTag]

theorem dispatchTag_EmptyArray (kvs : List (String × JVal)) :
    dispatchTag "EmptyArray" kvs = parseEmpty kvs := by
  simp [dispatchTag]

theorem dispatchTag_RegularArray (kvs : List (String × JVal)) :
    dispatchTag "RegularArray" kvs = parseRegular kvs := by
  simp [dispatchTag]

theorem dispatchTag_ListArray (kvs : List (String × JVal)) :
    dispatchTag "ListArray" kvs = parseListDict kvs := by
  simp [dispatchTag]

theorem dispatchTag_ListArray32 (kvs : List (String × JVal)) :
    dispatchTag "ListArray32" kvs = parseListDict kvs := by
  simp [dispatchTag]

theorem dispatchTag_ListArrayU32 (kvs : List (String × JVal)) :
    dispatchTag "ListArrayU32" kvs = parseListDict kvs := by
  simp [dispatchTag]

theorem dispatchTag_ListArray64 (kvs : List (String × JVal)) :
    dispatchTag "ListArray64" kvs = parseListDict kvs := by
  simp [dispatchTag]

theorem dispatchTag_ListOffsetArray (kvs : List (String × JVal)) :
    dispatchTag "ListOffsetArray" kvs = parseListOffset kvs := by
  simp [dispatchTag]

theorem dispatchTag_ListOffsetArray32 (kvs : List (String × JVal)) :
    dispatchTag "ListOffsetArray32" kvs = parseListOffset kvs := by
  simp [dispatchTag]

theorem dispatchTag_ListOffsetArrayU32 (kvs : List (String × JVal)) :
    dispatchTag "ListOffsetArrayU32" kvs = parseListOffset kvs := by
  simp [dispatchTag]

theorem dispatchTag_ListOffsetArray64 (kvs : List (String × JVal)) :
    dispatchTag "ListOffsetArray64" kvs = parseListOffset kvs := by
  simp [dispatchTag]

theorem dispatchTag_RecordArray (kvs : List (String × JVal)) :
    dispatchTag "RecordArray" kvs = parseRecord kvs := by
  simp [dispatchTag]

theorem dispatchTag_IndexedArray (kvs : List (String × JVal)) :
    dispatchTag "IndexedArray" kvs = parseIndexed kvs := by
  simp [dispatchTag]

theorem dispatchTag_IndexedArray32 (kvs : List (String × JVal)) :
    dispatchTag "IndexedArray32" kvs = parseIndexed kvs := by
  simp [dispatchTag]

theorem dispatchTag_IndexedArrayU32 (kvs : List (String × JVal)) :
    dispatchTag "IndexedArrayU32" kvs = parseIndexed kvs := by
  simp [dispatchTag]

theorem dispatchTag_IndexedArray64 (kvs : List (String × JVal)) :
    dispatchTag "IndexedArray64" kvs = parseIndexed kvs := by
  simp [dispatchTag]

theorem dispatchTag_IndexedOptionArray (kvs : List (String × JVal)) :
    dispatchTag "IndexedOptionArray" kvs = parseIndexedOption kvs := by
  simp [dispatchTag]

theorem dispatchTag_IndexedOptionArray32 (kvs : List (String × JVal)) :
    dispatchTag "IndexedOptionArray32" kvs = parseIndexedOption kvs := by
  simp [dispatchTag]

theorem dispatchTag_IndexedOptionArray64 (kvs : List (String × JVal)) :
    dispatchTag "IndexedOptionArray64" kvs = parseIndexedOption kvs := by
  simp [dispatchTag]

theorem dispatchTag_ByteMaskedArray (kvs : List (String × JVal)) :
    dispatchTag "ByteMaskedArray" kvs = parseByteMasked kvs := by
  simp [dispatchTag]

theorem dispatchTag_BitMaskedArray (kvs : List (String × JVal)) :
    dispatchTag "BitMaskedArray" kvs = parseBitMasked kvs := by
  simp [dispatchTag]

theorem dispatchTag_UnmaskedArray (kvs : List (String × JVal)) :
    dispatchTag "UnmaskedArray" kvs = parseUnmasked kvs := by
  simp [dispatchTag]

theorem dispatchTag_UnionArray (kvs : List (String × JVal)) :
    dispatchTag "UnionArray" kvs = parseUnion kvs := by
  simp [dispatchTag]

theorem dispatchTag_UnionArray8_32 (kvs : List (String × JVal)) :
    dispatchTag "UnionArray8_32" kvs = parseUnion kvs := by
  simp [dispatchTag]

theorem dispatchTag_UnionArray8_U32 (kvs : List (String × JVal)) :
    dispatchTag "UnionArray8_U32" kvs = parseUnion kvs := by
  simp [dispatchTag]

theorem dispatchTag_UnionArray8_64 (kvs : List (String × JVal)) :
    dispatchTag "UnionArray8_64" kvs = parseUnion kvs := by
  simp [dispatchTag]

theorem dispatchTag_VirtualArray (kvs : List (String × JVal)) :
    dispatchTag "VirtualArray" kvs
      = .error (.valueError "Awkward 1.x VirtualArrays are not supported") := by
  simp [dispatchTag]

theorem fromDict_obj_cons_class (c : String) (rest : List (String × JVal)) :
    fromDict (.obj (("class", .str c) :: rest))
      = dispatchTag c (("class", .str c) :: rest) :=
  fromDict_obj_class rfl

theorem parseListDict_payload (cls : String) (s t c p k : JVal) :
    parseListDict [("class", .str cls), ("starts", s), ("stops", t), ("content", c),
                   ("parameters", p), ("form_key", k)]
      = listCore s t (fromDict c) (some p) (some k) :=
  parseListDict_eq rfl rfl rfl

theorem parseListOffset_payload (cls : String) (o c p k : JVal) :
    parseListOffset [("class", .str cls), ("offsets", o), ("content", c),
                     ("parameters", p), ("form_key", k)]
      = listOffsetCore o (fromDict c) (some p) (some k) :=
  parseListOffset_eq rfl rfl

theorem parseIndexed_payload (cls : String) (i c p k : JVal) :
    parseIndexed [("class", .str cls), ("index", i), ("content", c),
                  ("parameters", p), ("form_key", k)]
      = indexedCore i (fromDict c) (some p) (some k) :=
  parseIndexed_eq rfl rfl

theorem parseIndexedOption_payload (cls : String) (i c p k : JVal) :
    parseIndexedOption [("class", .str cls), ("index", i), ("content", c),
                        ("parameters", p), ("form_key", k)]
      = indexedOptionCore i (fromDict c) (some p) (some k) :=
  parseIndexedOption_eq rfl rfl

theorem parseUnion_payload (cls : String) (tg i : JVal) (cl : List JVal) (p k : JVal) :
    parseUnion [("class", .str cls), ("tags", tg), ("index", i), ("contents", .arr cl),
                ("parameters", p), ("form_key", k)]
      = unionCore tg i (fromDictItems cl) (some p) (some k) :=
  parseUnion_eq rfl rfl rfl

theorem parseRecord_payload_old_mapping (pr : List (String × JVal)) (p k : JVal) :
    parseRecord [("class", .str "RecordArray"), ("contents", .obj pr),
                 ("parameters", p), ("form_key", k)]
      = recordOldCore (pr.map Prod.fst) (fromDictPairs pr) (some p) (some k) :=
  parseRecord_old_mapping rfl rfl

theorem parseRecord_payload_new (fsj : List JVal) (xs : List JVal) (p k : JVal) :
    parseRecord [("class", .str "RecordArray"), ("fields", .arr fsj),
                 ("contents", .arr xs), ("parameters", p), ("form_key", k)]
      = recordNewCore (.arr fsj) (fromDictItems xs) (some p) (some k) :=
  parseRecord_new rfl rfl

theorem parseRecord_payload_old_tuple (xs : List JVal) (p k : JVal) :
    parseRecord [("class", .str "RecordArray"), ("contents", .arr xs),
                 ("parameters", p), ("form_key", k)]
      = recordTupleCore (fromDictItems xs) (some p) (some k) :=
  parseRecord_old_tuple rfl rfl

/-- Claim C5: every legacy width-qualified class tag deserializes to the
same Form as the current spelling, for any fixed starts/stops/offsets/index/
tags entries, content, parameters and form_key. -/
theorem claim_C5_legacy_tags (s t o i tg c p k : JVal) (cl : List JVal) :
    (fromDict (.obj [("class", .str "ListArray32"), ("starts", s), ("stops", t),
        ("content", c), ("parameters", p), ("form_key", k)])
       = fromDict (.obj [("class", .str "ListArray"), ("starts", s), ("stops", t),
          ("content", c), ("parameters", p), ("form_key", k)])
     ∧ fromDict (.obj [("class", .str "ListArrayU32"), ("starts", s), ("stops", t),
        ("content", c), ("parameters", p), ("form_key", k)])
       = fromDict (.obj [("class", .str "ListArray"), ("starts", s), ("stops", t),
          ("content", c), ("parameters", p), ("form_key", k)])
     ∧ fromDict (.obj [("class", .str "ListArray64"), ("starts", s), ("stops", t),
        ("content", c), ("parameters", p), ("form_key", k)])
       = fromDict (.obj [("class", .str "ListArray"), ("starts", s), ("stops", t),
          ("content", c), ("parameters", p), ("form_key", k)]))
    ∧ (fromDict (.obj [("class", .str "ListOffsetArray32"), ("offsets", o),
        ("content", c), ("parameters", p), ("form_key", k)])
       = fromDict (.obj [("class", .str "ListOffsetArray"), ("offsets", o),
          ("content", c), ("parameters", p), ("form_key", k)])
     ∧ fromDict (.obj [("class", .str "ListOffsetArrayU32"), ("offsets", o),
        ("content", c), ("parameters", p), ("form_key", k)])
       = fromDict (.obj [("class", .str "ListOffsetArray"), ("offsets", o),
          ("content", c), ("parameters", p), ("form_key", k)])
     ∧ fromDict (.obj [("class", .str "ListOffsetArray64"), ("offsets", o),
        ("content", c), ("parameters", p), ("form_key", k)])
       = fromDict (.obj [("class", .str "ListOffsetArray"), ("offsets", o),
          ("content", c), ("parameters", p), ("form_key", k)]))
    ∧ (fromDict (.obj [("class", .str "IndexedArray32"), ("index", i),
        ("content", c), ("parameters", p), ("form_key", k)])
       = fromDict (.obj [("class", .str "IndexedArray"), ("index", i),
          ("content", c), ("parameters", p), ("form_key", k)])
     ∧ fromDict (.obj [("class", .str "IndexedArrayU32"), ("index", i),
        ("content", c), ("parameters", p), ("form_key", k)])
       = fromDict (.obj [("class", .str "IndexedArray"), ("index", i),
          ("content", c), ("parameters", p), ("form_key", k)])
     ∧ fromDict (.obj [("class", .str "IndexedArray64"), ("index", i),
        ("content", c), ("parameters", p), ("form_key", k)])
       = fromDict (.obj [("class", .str "IndexedArray"), ("index", i),
          ("content", c), ("parameters", p), ("form_key", k)]))
    ∧ (fromDict (.obj [("class", .str "IndexedOptionArray32"), ("index", i),
        ("content", c), ("parameters", p), ("form_key", k)])
       = fromDict (.obj [("class", .str "IndexedOptionArray"), ("index", i),
          ("content", c), ("parameters", p), ("form_key", k)])
     ∧ fromDict (.obj [("class", .str "IndexedOptionArray64"), ("index", i),
        ("content", c), ("parameters", p), ("form_key", k)])
       = fromDict (.obj [("class", .str "IndexedOptionArray"), ("index", i),
          ("content", c), ("parameters", p), ("form_key", k)]))
    ∧ (fromDict (.obj [("class", .str "UnionArray8_32"), ("tags", tg), ("index", i),
        ("contents", .arr cl), ("parameters", p), ("form_key", k)])
       = fromDict (.obj [("class", .str "UnionArray"), ("tags", tg), ("index", i),
          ("contents", .arr cl), ("parameters", p), ("form_key", k)])
     ∧ fromDict (.obj [("class", .str "UnionArray8_U32"), ("tags", tg), ("index", i),
        ("contents", .arr cl), ("parameters", p), ("form_key", k)])
       = fromDict (.obj [("class", .str "UnionArray"), ("tags", tg), ("index", i),
          ("contents", .arr cl), ("parameters", p), ("form_key", k)])
     ∧ fromDict (.obj [("class", .str "UnionArray8_64"), ("tags", tg), ("index", i),
        ("contents", .arr cl), ("parameters", p), ("form_key", k)])
       = fromDict (.obj [("class", .str "UnionArray"), ("tags", tg), ("index", i),
          ("contents", .arr cl), ("parameters", p), ("form_key", k)])) := by
  refine ⟨⟨?_, ?_, ?_⟩, ⟨?_, ?_, ?_⟩, ⟨?_, ?_, ?_⟩, ⟨?_, ?_⟩, ⟨?_, ?_, ?_⟩⟩
  · rw [fromDict_obj_cons_class, fromDict_obj_cons_class, dispatchTag_ListArray32,
        dispatchTag_ListArray, parseListDict_payload, parseListDict_payload]
  · rw [fromDict_obj_cons_class, fromDict_obj_cons_class, dispatchTag_ListArrayU32,
        dispatchTag_ListArray, parseListDict_payload, parseListDict_payload]
  · rw [fromDict_obj_cons_class, fromDict_obj_cons_class, dispatchTag_ListArray64,
        dispatchTag_ListArray, parseListDict_payload, parseListDict_payload]
  · rw [fromDict_obj_cons_class, fromDict_obj_cons_class, dispatchTag_ListOffsetArray32,
        dispatchTag_ListOffsetArray, parseListOffset_payload, parseListOffset_payload]
  · rw [fromDict_obj_cons_class, fromDict_obj_cons_class, dispatchTag_ListOffsetArrayU32,
        dispatchTag_ListOffsetArray, parseListOffset_payload, parseListOffset_payload]
  · rw [fromDict_obj_cons_class, fromDict_obj_cons_class, dispatchTag_ListOffsetArray64,
        dispatchTag_ListOffsetArray, parseListOffset_payload, parseListOffset_payload]
  · rw [fromDict_obj_cons_class, fromDict_obj_cons_class, dispatchTag_IndexedArray32,
        dispatchTag_IndexedArray, parseIndexed_payload, parseIndexed_payload]
  · rw [fromDict_obj_cons_class, fromDict_obj_cons_class, dispatchTag_IndexedArrayU32,
        dispatchTag_IndexedArray, parseIndexed_payload, parseIndexed_payload]
  · rw [fromDict_obj_cons_class, fromDict_obj_cons_class, dispatchTag_IndexedArray64,
        dispatchTag_IndexedArray, parseIndexed_payload, parseIndexed_payload]
  · rw [fromDict_obj_cons_class, fromDict_obj_cons_class, dispatchTag_IndexedOptionArray32,
        dispatchTag_IndexedOptionArray, parseIndexedOption_payload, parseIndexedOption_payload]
  · rw [fromDict_obj_cons_class, fromDict_obj_cons_class, dispatchTag_IndexedOptionArray64,
        dispatchTag_IndexedOptionArray, parseIndexedOption_payload, parseIndexedOption_payload]
  · rw [fromDict_obj_cons_class, fromDict_obj_cons_class, dispatchTag_UnionArray8_32,
        dispatchTag_UnionArray, parseUnion_payload, parseUnion_payload]
  · rw [fromDict_obj_cons_class, fromDict_obj_cons_class, dispatchTag_UnionArray8_U32,
        dispatchTag_UnionArray, parseUnion_payload, parseUnion_payload]
  · rw [fromDict_obj_cons_class, fromDict_obj_cons_class, dispatchTag_UnionArray8_64,
        dispatchTag_UnionArray, parseUnion_payload, parseUnion_payload]

theorem fromDictPairs_eq_items (pr : List (String × JVal)) :
    fromDictPairs pr = fromDictItems (pr.map Prod.snd) := by
  induction pr with
  | nil => rw [fromDictPairs_nil, List.map_nil, fromDictItems_nil]
  | cons kv rest ih =>
    rw [fromDictPairs_cons, List.map_cons, fromDictItems_cons, ih]

theorem readFieldNames_map_str (l : List String) :
    readFieldNames (l.map fun s => .str s) = .ok l := by
  induction l with
  | nil => rfl
  | cons s rest ih => simp [readFieldNames, ih, Except.map]

theorem recordNewCore_of_fields {fj : JVal} {fields : List String}
    (h : readFields fj = .ok (some fields)) (rs : Except FormError (List Form))
    (pq fq : Option JVal) :
    recordNewCore fj rs pq fq = recordOldCore fields rs pq fq := by
  cases rs with
  | error e => rfl
  | ok cs => simp [recordNewCore, recordOldCore, h]

/-- Claim C6: an old-style RecordArray payload whose contents is a mapping
deserializes to the same Form as the new-style payload carrying the same
names as a fields list over the same child payloads in order; and an
old-style contents list without a fields entry yields the tuple-mode Record
form, whose fields is None. -/
theorem claim_C6_record_legacy_shapes :
    (∀ (pr : List (String × JVal)) (p k : JVal),
       fromDict (.obj [("class", .str "RecordArray"), ("contents", .obj pr),
           ("parameters", p), ("form_key", k)])
         = fromDict (.obj [("class", .str "RecordArray"),
             ("fields", .arr (pr.map fun kv => .str kv.1)),
             ("contents", .arr (pr.map Prod.snd)),
             ("parameters", p), ("form_key", k)]))
    ∧ (∀ (xs : List JVal) (p k : JVal) (cs : List Form) (ps : Params) (fk : Option String),
       fromDictItems xs = .ok cs → readParams (some p) = .ok ps →
       readFormKey (some k) = .ok fk →
       fromDict (.obj [("class", .str "RecordArray"), ("contents", .arr xs),
           ("parameters", p), ("form_key", k)])
         = .ok (.record cs none ps fk)) := by
  constructor
  · intro pr p k
    rw [fromDict_obj_cons_class, fromDict_obj_cons_class, dispatchTag_RecordArray,
        dispatchTag_RecordArray, parseRecord_payload_old_mapping, parseRecord_payload_new,
        recordNewCore_of_fields, fromDictPairs_eq_items]
    rw [readFields]
    have : ((pr.map Prod.fst).map fun s => JVal.str s) = pr.map fun kv => JVal.str kv.1 := by
      simp [List.map_map]
    rw [← this, readFieldNames_map_str]
    rfl
  · intro xs p k cs ps fk hxs hp hk
    rw [fromDict_obj_cons_class, dispatchTag_RecordArray, parseRecord_payload_old_tuple,
        hxs]
    simp [recordTupleCore, withParamsKey, hp, hk, recordFormMk]

/-- Witness for claim C6: the tuple-mode branch evaluated at an empty
contents list with empty parameters and a null form_key. -/
theorem claim_C6_record_legacy_shapes_witness :
    fromDict (.obj [("class", .str "RecordArray"), ("contents", .arr []),
        ("parameters", .obj []), ("form_key", .null)])
      = .ok (.record [] none (some []) none) :=
  claim_C6_record_legacy_shapes.2 [] (.obj []) .null [] (some []) none
    (by rw [fromDictItems_nil]) rfl rfl

/-- Class tags recognized by from_dict, current and legacy (form.py lines
41-176), including the recognized-but-rejected VirtualArray tag. -/
def recognizedTags : List String :=
  ["NumpyArray", "EmptyArray", "RegularArray",
   "ListArray", "ListArray32", "ListArrayU32", "ListArray64",
   "ListOffsetArray", "ListOffsetArray32", "ListOffsetArrayU32", "ListOffsetArray64",
   "RecordArray",
   "IndexedArray", "IndexedArray32", "IndexedArrayU32", "IndexedArray64",
   "IndexedOptionArray", "IndexedOptionArray32", "IndexedOptionArray64",
   "ByteMaskedArray", "BitMaskedArray", "UnmaskedArray",
   "UnionArray", "UnionArray8_32", "UnionArray8_U32", "UnionArray8_64",
   "VirtualArray"]

set_option maxHeartbeats 2000000 in
/-- Unrecognized class tags fall through the whole dispatch chain to the
final value error naming the tag. -/
theorem dispatchTag_unrecognized {c : String} (kvs : List (String × JVal))
    (hn : c ∉ recognizedTags) :
    dispatchTag c kvs
      = .error (.valueError ("input class: " ++ pyStrRepr c ++ " was not recognised")) := by
  simp only [recognizedTags, List.mem_cons, List.not_mem_nil, or_false, not_or] at hn
  obtain ⟨n1, n2, n3, n4, n5, n6, n7, n8, n9, n10, n11, n12, n13, n14, n15, n16, n17,
    n18, n19, n20, n21, n22, n23, n24, n25, n26, n27⟩ := hn
  have m1 : ¬ c ∈ (["ListArray", "ListArray32", "ListArrayU32", "ListArray64"] : List String) := by
    simp only [List.mem_cons, List.not_mem_nil, or_false, not_or]
    exact ⟨n4, n5, n6, n7⟩
  have m2 : ¬ c ∈ (["ListOffsetArray", "ListOffsetArray32", "ListOffsetArrayU32",
      "ListOffsetArray64"] : List String) := by
    simp only [List.mem_cons, List.not_mem_nil, or_false, not_or]
    exact ⟨n8, n9, n10, n11⟩
  have m3 : ¬ c ∈ (["IndexedArray", "IndexedArray32", "IndexedArrayU32",
      "IndexedArray64"] : List String) := by
    simp only [List.mem_cons, List.not_mem_nil, or_false, not_or]
    exact ⟨n13, n14, n15, n16⟩
  have m4 : ¬ c ∈ (["IndexedOptionArray", "IndexedOptionArray32",
      "IndexedOptionArray64"] : List String) := by
    simp only [List.mem_cons, List.not_mem_nil, or_false, not_or]
    exact ⟨n17, n18, n19⟩
  have m5 : ¬ c ∈ (["UnionArray", "UnionArray8_32", "UnionArray8_U32",
      "UnionArray8_64"] : List String) := by
    simp only [List.mem_cons, List.not_mem_nil, or_false, not_or]
    exact ⟨n23, n24, n25, n26⟩
  unfold dispatchTag
  rw [if_neg n1, if_neg n2, if_neg n3, if_neg m1, if_neg m2, if_neg n12, if_neg m3,
      if_neg m4, if_neg n20, if_neg n21, if_neg n22, if_neg m5, if_neg n27]

/-- Claim C7: from_dict rejects the legacy VirtualArray tag with a value
error naming the unsupported feature, and any class tag outside the
recognized set with a value error naming the tag; in both cases no Form is
produced. -/
theorem claim_C7_rejected_tags :
    (∀ (kvs : List (String × JVal)),
       kvs.lookup "class" = some (.str "VirtualArray") →
       fromDict (.obj kvs)
         = .error (.valueError "Awkward 1.x VirtualArrays are not supported"))
    ∧ (∀ (kvs : List (String × JVal)) (c : String),
       kvs.lookup "class" = some (.str c) → c ∉ recognizedTags →
       fromDict (.obj kvs)
         = .error (.valueError ("input class: " ++ pyStrRepr c ++ " was not recognised"))) := by
  constructor
  · intro kvs h
    rw [fromDict_obj_class h, dispatchTag_VirtualArray]
  · intro kvs c h hn
    rw [fromDict_obj_class h, dispatchTag_unrecognized kvs hn]

/-- Witness for claim C7: the VirtualArray tag and a made-up tag, both on a
one-entry payload. -/
theorem claim_C7_rejected_tags_witness :
    fromDict (.obj [("class", .str "VirtualArray")])
      = .error (.valueError "Awkward 1.x VirtualArrays are not supported")
    ∧ fromDict (.obj [("class", .str "PartitionedArray")])
      = .error (.valueError ("input class: " ++ pyStrRepr "PartitionedArray"
          ++ " was not recognised")) :=
  ⟨claim_C7_rejected_tags.1 _ rfl,
   claim_C7_rejected_tags.2 _ "PartitionedArray" rfl (by decide)⟩

mutual
/-- Parameter normalization performed by a verbose serialization round trip:
emitting parameters through the materializing parameters property turns an
absent mapping into an empty one, so the deserialized tree carries
some-empty where the original carried none; everything else is preserved. -/
def paramNorm : Form → Form
  | .numpy p sh ps fk => .numpy p sh (some (ps.getD [])) fk
  | .empty ps fk => .empty (some (ps.getD [])) fk
  | .regular c sz ps fk => .regular (paramNorm c) sz (some (ps.getD [])) fk
  | .list s t c ps fk => .list s t (paramNorm c) (some (ps.getD [])) fk
  | .listoffset o c ps fk => .listoffset o (paramNorm c) (some (ps.getD [])) fk
  | .record cs fs ps fk => .record (paramNormList cs) fs (some (ps.getD [])) fk
  | .indexed i c ps fk => .indexed i (paramNorm c) (some (ps.getD [])) fk
  | .indexedoption i c ps fk => .indexedoption i (paramNorm c) (some (ps.getD [])) fk
  | .bytemasked m c vw ps fk => .bytemasked m (paramNorm c) vw (some (ps.getD [])) fk
  | .bitmasked m c vw lo ps fk => .bitmasked m (paramNorm c) vw lo (some (ps.getD [])) fk
  | .unmasked c ps fk => .unmasked (paramNorm c) (some (ps.getD [])) fk
  | .union t i cs ps fk => .union t i (paramNormList cs) (some (ps.getD [])) fk
termination_by f => sizeOf f
decreasing_by
  all_goals simp
  all_goals omega

/-- Parameter normalization over a contents list. -/
def paramNormList : List Form → List Form
  | [] => []
  | c :: cs => paramNorm c :: paramNormList cs
termination_by cs => sizeOf cs
decreasing_by
  all_goals simp
  all_goals omega
end

theorem paramNormList_nil : paramNormList [] = [] := by simp only [paramNormList]

theorem paramNormList_cons (c : Form) (cs : List Form) :
    paramNormList (c :: cs) = paramNorm c :: paramNormList cs := by
  simp only [paramNormList]

theorem paramNormList_length (cs : List Form) :
    (paramNormList cs).length = cs.length := by
  induction cs with
  | nil => rw [paramNormList_nil]
  | cons c rest ih => rw [paramNormList_cons]; simp [ih]

theorem toDictList_nil (v : Bool) : toDictList [] v = [] := by simp only [toDictList]

theorem toDictList_cons (c : Form) (cs : List Form) (v : Bool) :
    toDictList (c :: cs) v = toDictPart c v false :: toDictList cs v := by
  simp only [toDictList]

theorem toDictList_length (cs : List Form) (v : Bool) :
    (toDictList cs v).length = cs.length := by
  induction cs with
  | nil => rw [toDictList_nil]; rfl
  | cons c rest ih => rw [toDictList_cons]; simp [ih]

theorem readShape_map (sh : List Nat) :
    readShape (sh.map natJson) = .ok sh := by
  induction sh with
  | nil => rfl
  | cons n rest ih =>
    simp only [List.map_cons, natJson, readShape, ih, Except.map]
    rw [if_neg (by omega)]
    simp

theorem paramsOfJson_map (l : List (String × String)) :
    paramsOfJson (l.map fun kv => (kv.1, .str kv.2)) = some l := by
  induction l with
  | nil => rfl
  | cons kv rest ih => simp [paramsOfJson, ih]

theorem readParams_toJson (ps : Params) :
    readParams (some (.obj (paramsToJson ps))) = .ok (some (ps.getD [])) := by
  simp [readParams, paramsToJson, paramsOfJson_map]

theorem readFormKey_formKeyJson (fk : Option String) :
    readFormKey (some (formKeyJson fk)) = .ok fk := by
  cases fk <;> rfl

theorem withParamsKey_toJson (ps : Params) (fk : Option String)
    (k : Params → Option String → Except FormError Form) :
    withParamsKey (some (.obj (paramsToJson ps))) (some (formKeyJson fk)) k
      = k (some (ps.getD [])) fk := by
  simp [withParamsKey, readParams_toJson, readFormKey_formKeyJson]

theorem toDictPart_numpy_true (p : String) (sh : List Nat) (ps : Params) (fk : Option String) (tl : Bool) :
    toDictPart (.numpy p sh ps fk) true tl
      = .obj [("class", .str "NumpyArray"), ("primitive", .str p),
              ("inner_shape", .arr (sh.map natJson)),
              ("parameters", .obj (paramsToJson ps)), ("form_key", formKeyJson fk)] := by
  simp [toDictPart, toDictExtra]

theorem toDictPart_empty_true (ps : Params) (fk : Option String) (tl : Bool) :
    toDictPart (.empty ps fk) true tl
      = .obj [("class", .str "EmptyArray"),
              ("parameters", .obj (paramsToJson ps)), ("form_key", formKeyJson fk)] := by
  simp [toDictPart, toDictExtra]

theorem toDictPart_regular_true (c : Form) (sz : Option Nat) (ps : Params) (fk : Option String) (tl : Bool) :
    toDictPart (.regular c sz ps fk) true tl
      = .obj [("class", .str "RegularArray"), ("content", toDictPart c true false),
              ("size", sizeJson sz),
              ("parameters", .obj (paramsToJson ps)), ("form_key", formKeyJson fk)] := by
  simp [toDictPart, toDictExtra]

theorem toDictPart_list_true (s t : String) (c : Form) (ps : Params) (fk : Option String) (tl : Bool) :
    toDictPart (.list s t c ps fk) true tl
      = .obj [("class", .str "ListArray"), ("starts", .str s), ("stops", .str t),
              ("content", toDictPart c true false),
              ("parameters", .obj (paramsToJson ps)), ("form_key", formKeyJson fk)] := by
  simp [toDictPart, toDictExtra]

theorem toDictPart_listoffset_true (o : String) (c : Form) (ps : Params) (fk : Option String) (tl : Bool) :
    toDictPart (.listoffset o c ps fk) true tl
      = .obj [("class", .str "ListOffsetArray"), ("offsets", .str o),
              ("content", toDictPart c true false),
              ("parameters", .obj (paramsToJson ps)), ("form_key", formKeyJson fk)] := by
  simp [toDictPart, toDictExtra]

theorem toDictPart_record_fields_true (cs : List Form) (a : List String) (ps : Params) (fk : Option String) (tl : Bool) :
    toDictPart (.record cs (some a) ps fk) true tl
      = .obj [("class", .str "RecordArray"),
              ("contents", .obj (a.zip (toDictList cs true))),
              ("parameters", .obj (paramsToJson ps)), ("form_key", formKeyJson fk)] := by
  simp [toDictPart, toDictExtra]

theorem toDictPart_record_tuple_true (cs : List Form) (ps : Params) (fk : Option String) (tl : Bool) :
    toDictPart (.record cs none ps fk) true tl
      = .obj [("class", .str "RecordArray"),
              ("contents", .arr (toDictList cs true)),
              ("parameters", .obj (paramsToJson ps)), ("form_key", formKeyJson fk)] := by
  simp [toDictPart, toDictExtra]

theorem toDictPart_indexed_true (i : String) (c : Form) (ps : Params) (fk : Option String) (tl : Bool) :
    toDictPart (.indexed i c ps fk) true tl
      = .obj [("class", .str "IndexedArray"), ("index", .str i),
              ("content", toDictPart c true false),
              ("parameters", .obj (paramsToJson ps)), ("form_key", formKeyJson fk)] := by
  simp [toDictPart, toDictExtra]

theorem toDictPart_indexedoption_true (i : String) (c : Form) (ps : Params) (fk : Option String) (tl : Bool) :
    toDictPart (.indexedoption i c ps fk) true tl
      = .obj [("class", .str "IndexedOptionArray"), ("index", .str i),
              ("content", toDictPart c true false),
              ("parameters", .obj (paramsToJson ps)), ("form_key", formKeyJson fk)] := by
  simp [toDictPart, toDictExtra]

theorem toDictPart_bytemasked_true (m : String) (c : Form) (vw : Bool) (ps : Params) (fk : Option String) (tl : Bool) :
    toDictPart (.bytemasked m c vw ps fk) true tl
      = .obj [("class", .str "ByteMaskedArray"), ("mask", .str m),
              ("valid_when", .bool vw), ("content", toDictPart c true false),
              ("parameters", .obj (paramsToJson ps)), ("form_key", formKeyJson fk)] := by
  simp [toDictPart, toDictExtra]

theorem toDictPart_bitmasked_true (m : String) (c : Form) (vw lo : Bool) (ps : Params) (fk : Option String) (tl : Bool) :
    toDictPart (.bitmasked m c vw lo ps fk) true tl
      = .obj [("class", .str "BitMaskedArray"), ("mask", .str m),
              ("valid_when", .bool vw), ("lsb_order", .bool lo),
              ("content", toDictPart c true false),
              ("parameters", .obj (paramsToJson ps)), ("form_key", formKeyJson fk)] := by
  simp [toDictPart, toDictExtra]

theorem toDictPart_unmasked_true (c : Form) (ps : Params) (fk : Option String) (tl : Bool) :
    toDictPart (.unmasked c ps fk) true tl
      = .obj [("class", .str "UnmaskedArray"), ("content", toDictPart c true false),
              ("parameters", .obj (paramsToJson ps)), ("form_key", formKeyJson fk)] := by
  simp [toDictPart, toDictExtra]

theorem toDictPart_union_true (t i : String) (cs : List Form) (ps : Params) (fk : Option String) (tl : Bool) :
    toDictPart (.union t i cs ps fk) true tl
      = .obj [("class", .str "UnionArray"), ("tags", .str t), ("index", .str i),
              ("contents", .arr (toDictList cs true)),
              ("parameters", .obj (paramsToJson ps)), ("form_key", formKeyJson fk)] := by
  simp [toDictPart, toDictExtra]

theorem parseNumpy_payload (cj pj shj prj kj : JVal) :
    parseNumpy [("class", cj), ("primitive", pj), ("inner_shape", shj),
                ("parameters", prj), ("form_key", kj)]
      = numpyCore pj (some shj) (some prj) (some kj) := rfl

theorem parseEmpty_payload (cj prj kj : JVal) :
    parseEmpty [("class", cj), ("parameters", prj), ("form_key", kj)]
      = withParamsKey (some prj) (some kj) (fun ps fk => .ok (.empty ps fk)) := rfl

theorem parseRegular_payload (cj c szj prj kj : JVal) :
    parseRegular [("class", cj), ("content", c), ("size", szj),
                  ("parameters", prj), ("form_key", kj)]
      = regularCore (fromDict c) (some szj) (some prj) (some kj) :=
  parseRegular_eq rfl

theorem parseByteMasked_payload (cj mj vwj c prj kj : JVal) :
    parseByteMasked [("class", cj), ("mask", mj), ("valid_when", vwj),
                     ("content", c), ("parameters", prj), ("form_key", kj)]
      = byteMaskedCore mj (fromDict c) (some vwj) (some prj) (some kj) :=
  parseByteMasked_eq rfl rfl

theorem parseBitMasked_payload (cj mj vwj loj c prj kj : JVal) :
    parseBitMasked [("class", cj), ("mask", mj), ("valid_when", vwj),
                    ("lsb_order", loj), ("content", c), ("parameters", prj),
                    ("form_key", kj)]
      = bitMaskedCore mj (fromDict c) (some vwj) (some loj) (some prj) (some kj) :=
  parseBitMasked_eq rfl rfl

theorem parseUnmasked_payload (cj c prj kj : JVal) :
    parseUnmasked [("class", cj), ("content", c), ("parameters", prj),
                   ("form_key", kj)]
      = unmaskedCore (fromDict c) (some prj) (some kj) :=
  parseUnmasked_eq rfl

theorem readSize_sizeJson (sz : Option Nat) : readSize (sizeJson sz) = .ok sz := by
  cases sz with
  | none => rfl
  | some n =>
    simp [sizeJson, readSize]

theorem roundtrip_aux : ∀ (n : Nat),
    (∀ (f : Form), sizeOf f ≤ n → wfForm f = true → ∀ (tl : Bool),
      fromDict (toDictPart f true tl) = .ok (paramNorm f))
    ∧ (∀ (cs : List Form), sizeOf cs ≤ n → wfFormList cs = true →
      fromDictItems (toDictList cs true) = .ok (paramNormList cs)) := by
  intro n
  induction n with
  | zero =>
    constructor
    · intro f hsz
      exfalso
      cases f <;> simp at hsz
    · intro cs hsz hwl
      cases cs with
      | nil => rw [toDictList_nil, fromDictItems_nil, paramNormList_nil]
      | cons c rest => exfalso; simp at hsz
  | succ n ih =>
    obtain ⟨ihf, ihl⟩ := ih
    constructor
    · intro f hsz hwf tl
      cases f with
      | numpy p sh ps fk =>
        have hp : isPrimitive p = true := by simpa [wfForm] using hwf
        rw [toDictPart_numpy_true, fromDict_obj_cons_class, dispatchTag_NumpyArray,
            parseNumpy_payload]
        simp [numpyCore, readShape_map, withParamsKey_toJson, numpyFormMk, hp, paramNorm]
      | empty ps fk =>
        rw [toDictPart_empty_true, fromDict_obj_cons_class, dispatchTag_EmptyArray,
            parseEmpty_payload, withParamsKey_toJson]
        simp [paramNorm]
      | regular c sz ps fk =>
        have hsc : sizeOf c ≤ n := by simp at hsz; omega
        have hwc : wfForm c = true := by simpa [wfForm] using hwf
        rw [toDictPart_regular_true, fromDict_obj_cons_class, dispatchTag_RegularArray,
            parseRegular_payload, ihf c hsc hwc false]
        simp [regularCore, readSize_sizeJson, withParamsKey_toJson, paramNorm]
      | list s t c ps fk =>
        have hsc : sizeOf c ≤ n := by simp at hsz; omega
        have hwf' : (indexDtypes.contains s && indexDtypes.contains t && wfForm c) = true := by
          simpa [wfForm] using hwf
        simp only [Bool.and_eq_true] at hwf'
        rw [toDictPart_list_true, fromDict_obj_cons_class, dispatchTag_ListArray,
            parseListDict_payload, ihf c hsc hwf'.2 false]
        simp [listCore, withParamsKey_toJson, listFormMk, hwf'.1.1, hwf'.1.2, paramNorm]
        exact ⟨by simpa using hwf'.1.1, by simpa using hwf'.1.2⟩
      | listoffset o c ps fk =>
        have hsc : sizeOf c ≤ n := by simp at hsz; omega
        have hwf' : (indexDtypes.contains o && wfForm c) = true := by
          simpa [wfForm] using hwf
        simp only [Bool.and_eq_true] at hwf'
        rw [toDictPart_listoffset_true, fromDict_obj_cons_class, dispatchTag_ListOffsetArray,
            parseListOffset_payload, ihf c hsc hwf'.2 false]
        simp [listOffsetCore, withParamsKey_toJson, listOffsetFormMk, hwf'.1, paramNorm]
        exact (by simpa using hwf'.1)
      | record cs fs ps fk =>
        have hsc : sizeOf cs ≤ n := by simp at hsz; omega
        cases fs with
        | none =>
          have hwl : wfFormList cs = true := by simpa [wfForm] using hwf
          rw [toDictPart_record_tuple_true, fromDict_obj_cons_class,
              dispatchTag_RecordArray, parseRecord_payload_old_tuple, ihl cs hsc hwl]
          simp [recordTupleCore, withParamsKey_toJson, recordFormMk, paramNorm]
        | some a =>
          have hwf' : ((a.length == cs.length && decide a.Nodup) && wfFormList cs) = true := by
            simpa [wfForm] using hwf
          simp only [Bool.and_eq_true, beq_iff_eq, decide_eq_true_eq] at hwf'
          have hlen : a.length = cs.length := hwf'.1.1
          have hmapf : (a.zip (toDictList cs true)).map Prod.fst = a := by
            apply List.map_fst_zip
            rw [toDictList_length]
            omega
          have hmaps : (a.zip (toDictList cs true)).map Prod.snd = toDictList cs true := by
            apply List.map_snd_zip
            rw [toDictList_length]
            omega
          rw [toDictPart_record_fields_true, fromDict_obj_cons_class,
              dispatchTag_RecordArray, parseRecord_payload_old_mapping, hmapf,
              fromDictPairs_eq_items, hmaps, ihl cs hsc hwf'.2]
          simp [recordOldCore, withParamsKey_toJson, recordFormMk, paramNorm]
      | indexed i c ps fk =>
        have hsc : sizeOf c ≤ n := by simp at hsz; omega
        have hwf' : (indexDtypes.contains i && wfForm c) = true := by
          simpa [wfForm] using hwf
        simp only [Bool.and_eq_true] at hwf'
        rw [toDictPart_indexed_true, fromDict_obj_cons_class, dispatchTag_IndexedArray,
            parseIndexed_payload, ihf c hsc hwf'.2 false]
        simp [indexedCore, withParamsKey_toJson, indexedFormMk, hwf'.1, paramNorm]
        exact (by simpa using hwf'.1)
      | indexedoption i c ps fk =>
        have hsc : sizeOf c ≤ n := by simp at hsz; omega
        have hwf' : (optionIndexDtypes.contains i && wfForm c) = true := by
          simpa [wfForm] using hwf
        simp only [Bool.and_eq_true] at hwf'
        rw [toDictPart_indexedoption_true, fromDict_obj_cons_class,
            dispatchTag_IndexedOptionArray, parseIndexedOption_payload,
            ihf c hsc hwf'.2 false]
        simp [indexedOptionCore, withParamsKey_toJson, indexedOptionFormMk, hwf'.1, paramNorm]
        exact (by simpa using hwf'.1)
      | bytemasked m c vw ps fk =>
        have hsc : sizeOf c ≤ n := by simp at hsz; omega
        have hwc : wfForm c = true := by simpa [wfForm] using hwf
        rw [toDictPart_bytemasked_true, fromDict_obj_cons_class,
            dispatchTag_ByteMaskedArray, parseByteMasked_payload, ihf c hsc hwc false]
        simp [byteMaskedCore, withParamsKey_toJson, byteMaskedFormMk, paramNorm]
      | bitmasked m c vw lo ps fk =>
        have hsc : sizeOf c ≤ n := by simp at hsz; omega
        have hwc : wfForm c = true := by simpa [wfForm] using hwf
        rw [toDictPart_bitmasked_true, fromDict_obj_cons_class,
            dispatchTag_BitMaskedArray, parseBitMasked_payload, ihf c hsc hwc false]
        simp [bitMaskedCore, withParamsKey_toJson, bitMaskedFormMk, paramNorm]
      | unmasked c ps fk =>
        have hsc : sizeOf c ≤ n := by simp at hsz; omega
        have hwc : wfForm c = true := by simpa [wfForm] using hwf
        rw [toDictPart_unmasked_true, fromDict_obj_cons_class,
            dispatchTag_UnmaskedArray, parseUnmasked_payload, ihf c hsc hwc false]
        simp [unmaskedCore, withParamsKey_toJson, paramNorm]
      | union t i cs ps fk =>
        have hsc : sizeOf cs ≤ n := by simp at hsz; omega
        have hwf' : (t == "i8" && indexDtypes.contains i && wfFormList cs) = true := by
          simpa [wfForm] using hwf
        simp only [Bool.and_eq_true] at hwf'
        rw [toDictPart_union_true, fromDict_obj_cons_class, dispatchTag_UnionArray,
            parseUnion_payload, ihl cs hsc hwf'.2]
        simp [unionCore, withParamsKey_toJson, unionFormMk, hwf'.1.1, hwf'.1.2, paramNorm]
        exact (by simpa using hwf'.1.2)
    · intro cs hsz hwl
      cases cs with
      | nil => rw [toDictList_nil, fromDictItems_nil, paramNormList_nil]
      | cons c rest =>
        have hw' : (wfForm c && wfFormList rest) = true := by
          simpa [wfFormList_cons] using hwl
        simp only [Bool.and_eq_true] at hw'
        rw [toDictList_cons, fromDictItems_cons,
            ihf c (by simp at hsz; omega) hw'.1 false,
            ihl rest (by simp at hsz; omega) hw'.2, paramNormList_cons]

theorem paramsEqual_norm_left (ps : Params) : paramsEqual (some (ps.getD [])) ps = true := by
  cases ps <;> simp [paramsEqual]

theorem paramsEqual_norm_right (ps : Params) : paramsEqual ps (some (ps.getD [])) = true := by
  cases ps <;> simp [paramsEqual]

theorem formDictLe_of_forall (d d' : List (String × Form))
    (h : ∀ kv ∈ d, ∃ w, d'.lookup kv.1 = some w ∧ formEq kv.2 w = true) :
    formDictLe d d' = true := by
  induction d with
  | nil => exact formDictLe_nil d'
  | cons kv rest ih =>
    obtain ⟨w, hw, he⟩ := h kv (by simp)
    cases kv with
    | mk k v =>
      rw [formDictLe_cons_some hw, he, ih (fun kv2 hkv2 => h kv2 (by simp [hkv2]))]
      rfl

theorem lookup_zip_self : ∀ (a : List String) (cs' : List Form), a.Nodup →
    ∀ (i : Nat) (hi : i < a.length) (hic : i < cs'.length),
    (a.zip cs').lookup (a.get ⟨i, hi⟩) = some (cs'.get ⟨i, hic⟩) := by
  intro a
  induction a with
  | nil => intro cs' hnd i hi; simp at hi
  | cons k a' ih =>
    intro cs' hnd i hi hic
    cases cs' with
    | nil => simp at hic
    | cons c' cs'' =>
      cases i with
      | zero => simp [List.zip, List.lookup]
      | succ j =>
        have hnd' := List.nodup_cons.mp hnd
        have hmem : a'.get ⟨j, by simpa using hi⟩ ∈ a' := List.get_mem a' j (by simpa using hi)
        have hne : a'.get ⟨j, by simpa using hi⟩ ≠ k :=
          fun heq => hnd'.1 (heq ▸ hmem)
        have hbeq : (a'.get ⟨j, by simpa using hi⟩ == k) = false := by
          simpa using hne
        simp only [List.zip, List.zipWith, List.get, List.lookup, hbeq]
        exact ih cs'' hnd'.2 j (by simpa using hi) (by simpa using hic)

theorem formListEq_nil_cons (y : Form) (ys : List Form) :
    formListEq [] (y :: ys) = false := by
  simp only [formListEq]

theorem formListEq_cons_nil (x : Form) (xs : List Form) :
    formListEq (x :: xs) [] = false := by
  simp only [formListEq]

theorem formListEq_get : ∀ (xs ys : List Form), formListEq xs ys = true →
    xs.length = ys.length
    ∧ ∀ (i : Nat) (hx : i < xs.length) (hy : i < ys.length),
        formEq (xs.get ⟨i, hx⟩) (ys.get ⟨i, hy⟩) = true := by
  intro xs
  induction xs with
  | nil =>
    intro ys h
    cases ys with
    | nil => exact ⟨rfl, fun i hx => by simp at hx⟩
    | cons y ys' => rw [formListEq_nil_cons] at h; cases h
  | cons x xs' ih =>
    intro ys h
    cases ys with
    | nil => rw [formListEq_cons_nil] at h; cases h
    | cons y ys' =>
      rw [formListEq_cons] at h
      simp only [Bool.and_eq_true] at h
      obtain ⟨hl, hi⟩ := ih ys' h.2
      refine ⟨by simp [hl], ?_⟩
      intro i hx hy
      cases i with
      | zero => exact h.1
      | succ j => exact hi j (by simpa using hx) (by simpa using hy)

theorem formDictLe_zip_norm {a : List String} {cs cs' : List Form}
    (hnd : a.Nodup) (hlen : a.length = cs.length) (hlen' : a.length = cs'.length)
    (hpw : formListEq cs cs' = true) :
    formDictLe (a.zip cs) (a.zip cs') = true := by
  apply formDictLe_of_forall
  intro kv hkv
  obtain ⟨i, hi⟩ := List.get_of_mem hkv
  subst hi
  have hizip : i.1 < (a.zip cs).length := i.2
  have hlz : (a.zip cs).length = min a.length cs.length := by simp
  have hia : i.1 < a.length := by omega
  have hics : i.1 < cs.length := by omega
  have hics' : i.1 < cs'.length := by omega
  have hget : (a.zip cs).get i = (a.get ⟨i.1, hia⟩, cs.get ⟨i.1, hics⟩) := by
    apply List.get_zip
  refine ⟨cs'.get ⟨i.1, hics'⟩, ?_, ?_⟩
  · simp only [hget]
    exact lookup_zip_self a cs' hnd i.1 hia hics'
  · simp only [hget]
    exact (formListEq_get cs cs' hpw).2 i.1 hics hics'

theorem formEq_paramNorm_aux : ∀ (n : Nat),
    (∀ (f : Form), sizeOf f ≤ n → wfForm f = true →
      formEq (paramNorm f) f = true ∧ formEq f (paramNorm f) = true)
    ∧ (∀ (cs : List Form), sizeOf cs ≤ n → wfFormList cs = true →
      formListEq (paramNormList cs) cs = true ∧ formListEq cs (paramNormList cs) = true) := by
  intro n
  induction n with
  | zero =>
    constructor
    · intro f hsz
      exfalso
      cases f <;> simp at hsz
    · intro cs hsz hwl
      cases cs with
      | nil => rw [paramNormList_nil]; exact ⟨formListEq_nil, formListEq_nil⟩
      | cons c rest => exfalso; simp at hsz
  | succ n ih =>
    obtain ⟨ihf, ihl⟩ := ih
    constructor
    · intro f hsz hwf
      cases f with
      | numpy p sh ps fk =>
        simp [paramNorm, formEq_numpy, paramsEqual_norm_left, paramsEqual_norm_right]
      | empty ps fk =>
        simp [paramNorm, formEq_empty, paramsEqual_norm_left, paramsEqual_norm_right]
      | regular c sz ps fk =>
        have hsc : sizeOf c ≤ n := by simp at hsz; omega
        have hwc : wfForm c = true := by simpa [wfForm] using hwf
        have := ihf c hsc hwc
        simp [paramNorm, formEq_regular, paramsEqual_norm_left, paramsEqual_norm_right,
          this.1, this.2]
      | list s t c ps fk =>
        have hsc : sizeOf c ≤ n := by simp at hsz; omega
        have hwf' : (indexDtypes.contains s && indexDtypes.contains t && wfForm c) = true := by
          simpa [wfForm] using hwf
        simp only [Bool.and_eq_true] at hwf'
        have := ihf c hsc hwf'.2
        simp [paramNorm, formEq_list, paramsEqual_norm_left, paramsEqual_norm_right,
          this.1, this.2]
      | listoffset o c ps fk =>
        have hsc : sizeOf c ≤ n := by simp at hsz; omega
        have hwf' : (indexDtypes.contains o && wfForm c) = true := by
          simpa [wfForm] using hwf
        simp only [Bool.and_eq_true] at hwf'
        have := ihf c hsc hwf'.2
        simp [paramNorm, formEq_listoffset, paramsEqual_norm_left, paramsEqual_norm_right,
          this.1, this.2]
      | record cs fs ps fk =>
        have hsc : sizeOf cs ≤ n := by simp at hsz; omega
        cases fs with
        | none =>
          have hwl : wfFormList cs = true := by simpa [wfForm] using hwf
          have := ihl cs hsc hwl
          simp [paramNorm, formEq_record_tuple, paramsEqual_norm_left,
            paramsEqual_norm_right, paramNormList_length, this.1, this.2]
        | some a =>
          have hwf' : ((a.length == cs.length && decide a.Nodup) && wfFormList cs) = true := by
            simpa [wfForm] using hwf
          simp only [Bool.and_eq_true, beq_iff_eq, decide_eq_true_eq] at hwf'
          have hlen : a.length = cs.length := hwf'.1.1
          have hnd : a.Nodup := hwf'.1.2
          have hpw := ihl cs hsc hwf'.2
          have hlen' : a.length = (paramNormList cs).length := by
            rw [paramNormList_length]; omega
          constructor
          · simp [paramNorm, formEq_record_fields, paramsEqual_norm_left,
              paramNormList_length,
              formDictLe_zip_norm hnd hlen' hlen hpw.1,
              formDictLe_zip_norm hnd hlen hlen' hpw.2]
          · simp [paramNorm, formEq_record_fields, paramsEqual_norm_right,
              paramNormList_length,
              formDictLe_zip_norm hnd hlen' hlen hpw.1,
              formDictLe_zip_norm hnd hlen hlen' hpw.2]
      | indexed i c ps fk =>
        have hsc : sizeOf c ≤ n := by simp at hsz; omega
        have hwf' : (indexDtypes.contains i && wfForm c) = true := by
          simpa [wfForm] using hwf
        simp only [Bool.and_eq_true] at hwf'
        have := ihf c hsc hwf'.2
        simp [paramNorm, formEq_indexed, paramsEqual_norm_left, paramsEqual_norm_right,
          this.1, this.2]
      | indexedoption i c ps fk =>
        have hsc : sizeOf c ≤ n := by simp at hsz; omega
        have hwf' : (optionIndexDtypes.contains i && wfForm c) = true := by
          simpa [wfForm] using hwf
        simp only [Bool.and_eq_true] at hwf'
        have := ihf c hsc hwf'.2
        simp [paramNorm, formEq_indexedoption, paramsEqual_norm_left,
          paramsEqual_norm_right, this.1, this.2]
      | bytemasked m c vw ps fk =>
        have hsc : sizeOf c ≤ n := by simp at hsz; omega
        have hwc : wfForm c = true := by simpa [wfForm] using hwf
        have := ihf c hsc hwc
        simp [paramNorm, formEq_bytemasked, paramsEqual_norm_left, paramsEqual_norm_right,
          this.1, this.2]
      | bitmasked m c vw lo ps fk =>
        have hsc : sizeOf c ≤ n := by simp at hsz; omega
        have hwc : wfForm c = true := by simpa [wfForm] using hwf
        have := ihf c hsc hwc
        simp [paramNorm, formEq_bitmasked, paramsEqual_norm_left, paramsEqual_norm_right,
          this.1, this.2]
      | unmasked c ps fk =>
        have hsc : sizeOf c ≤ n := by simp at hsz; omega
        have hwc : wfForm c = true := by simpa [wfForm] using hwf
        have := ihf c hsc hwc
        simp [paramNorm, formEq_unmasked, paramsEqual_norm_left, paramsEqual_norm_right,
          this.1, this.2]
      | union t i cs ps fk =>
        have hsc : sizeOf cs ≤ n := by simp at hsz; omega
        have hwf' : (t == "i8" && indexDtypes.contains i && wfFormList cs) = true := by
          simpa [wfForm] using hwf
        simp only [Bool.and_eq_true] at hwf'
        have := ihl cs hsc hwf'.2
        simp [paramNorm, formEq_union, paramsEqual_norm_left, paramsEqual_norm_right,
          this.1, this.2]
    · intro cs hsz hwl
      cases cs with
      | nil => rw [paramNormList_nil]; exact ⟨formListEq_nil, formListEq_nil⟩
      | cons c rest =>
        have hw' : (wfForm c && wfFormList rest) = true := by
          simpa [wfFormList_cons] using hwl
        simp only [Bool.and_eq_true] at hw'
        have h1 := ihf c (by simp at hsz; omega) hw'.1
        have h2 := ihl rest (by simp at hsz; omega) hw'.2
        rw [paramNormList_cons]
        constructor
        · rw [formListEq_cons, h1.1, h2.1]; rfl
        · rw [formListEq_cons, h1.2, h2.2]; rfl

/-- Claim C1: for every well-formed Form f (index, tag and primitive dtypes
drawn from their enumerations; record field lists matching their contents in
length and free of duplicates), deserializing the verbose serialization of
f yields a Form structurally equal to f, with parameters and form_key
preserved: from_dict(f.to_dict(verbose=True)) == f. -/
theorem claim_C1_roundtrip (f : Form) (h : wfForm f = true) :
    ∃ g, fromDict (toDict f true) = .ok g ∧ formEq g f = true :=
  ⟨paramNorm f, (roundtrip_aux (sizeOf f)).1 f le_rfl h true,
   ((formEq_paramNorm_aux (sizeOf f)).1 f le_rfl h).1⟩

/-- Witness for claim C1: a record of one int64 field with a form key,
wrapped in a byte mask, runs the round trip. -/
theorem claim_C1_roundtrip_witness :
    ∃ g, fromDict (toDict (.bytemasked "i8"
        (.record [.numpy "int64" [] none none] (some ["x"]) none (some "n0"))
        true none none) true) = .ok g
      ∧ formEq g (.bytemasked "i8"
          (.record [.numpy "int64" [] none none] (some ["x"]) none (some "n0"))
          true none none) = true :=
  claim_C1_roundtrip _ (by
    simp only [wfForm, wfFormList]
    decide)

/-- Embedding of the semantic Type algebra (spec §3: numeric primitive,
unknown, list, regular-size list, option, record, union), as consumed by
form.from_type; each node carries parameters. -/
inductive AkType where
  | numpy (primitive : String) (ps : Params)
  | unknown (ps : Params)
  | list (content : AkType) (ps : Params)
  | regular (content : AkType) (size : Option Nat) (ps : Params)
  | option (content : AkType) (ps : Params)
  | record (contents : List AkType) (fields : Option (List String)) (ps : Params)
  | union (contents : List AkType) (ps : Params)

/-- Parameters of a Type node. -/
def typeParameters : AkType → Params
  | .numpy _ ps => ps
  | .unknown ps => ps
  | .list _ ps => ps
  | .regular _ _ ps => ps
  | .option _ ps => ps
  | .record _ _ ps => ps
  | .union _ ps => ps

mutual
/-- Embedding of form.from_type (form.py lines 190-225): every Type node is
lifted to one canonical physical encoding; parameters are carried over and
no form_key is produced.  The constructor type checks of the produced Forms
are discharged by the embedding types. -/
def fromType : AkType → Form
  | .numpy p ps => .numpy p [] ps none
  | .list c ps => .listoffset "i64" (fromType c) ps none
  | .regular c sz ps => .regular (fromType c) sz ps none
  | .option c ps => .indexedoption "i64" (fromType c) ps none
  | .record cs fs ps => .record (fromTypeList cs) fs ps none
  | .union cs ps => .union "i8" "i64" (fromTypeList cs) ps none
  | .unknown ps => .empty ps none
termination_by t => sizeOf t
decreasing_by
  all_goals simp
  all_goals omega

/-- Type contents lifted in order. -/
def fromTypeList : List AkType → List Form
  | [] => []
  | c :: cs => fromType c :: fromTypeList cs
termination_by cs => sizeOf cs
decreasing_by
  all_goals simp
  all_goals omega
end

/-- Claim C4: from_type chooses one fixed canonical physical encoding per
Type node -- ListType becomes a ListOffset form with 64-bit signed offsets,
OptionType an IndexedOption form with a 64-bit signed index, UnionType a
Union form with 8-bit signed tags and a 64-bit signed index -- and the
parameters of every Type node are carried onto the produced Form node. -/
theorem claim_C4_from_type :
    (∀ (c : AkType) (ps : Params),
       fromType (.list c ps) = .listoffset "i64" (fromType c) ps none)
    ∧ (∀ (c : AkType) (ps : Params),
       fromType (.option c ps) = .indexedoption "i64" (fromType c) ps none)
    ∧ (∀ (cs : List AkType) (ps : Params),
       fromType (.union cs ps) = .union "i8" "i64" (fromTypeList cs) ps none)
    ∧ (∀ (t : AkType), formParameters (fromType t) = typeParameters t) := by
  refine ⟨?_, ?_, ?_, ?_⟩
  · intro c ps
    simp only [fromType]
  · intro c ps
    simp only [fromType]
  · intro cs ps
    simp only [fromType]
  · intro t
    cases t <;> simp only [fromType, formParameters, typeParameters]

mutual
/-- Modelled from the spec: Type.is_equal_to is not under src/; spec §3 and
§4.3: structural equality of Type trees ignoring physical encoding while
comparing parameters, field names, fixed sizes and primitives. -/
def typeIsEqual (t t' : AkType) : Bool :=
  match t, t' with
  | .numpy p ps, .numpy p' ps' => p == p' && paramsEqual ps ps'
  | .unknown ps, .unknown ps' => paramsEqual ps ps'
  | .list c ps, .list c' ps' => paramsEqual ps ps' && typeIsEqual c c'
  | .regular c sz ps, .regular c' sz' ps' =>
    sz == sz' && paramsEqual ps ps' && typeIsEqual c c'
  | .option c ps, .option c' ps' => paramsEqual ps ps' && typeIsEqual c c'
  | .record cs fs ps, .record cs' fs' ps' =>
    fs == fs' && paramsEqual ps ps' && typeListEqual cs cs'
  | .union cs ps, .union cs' ps' => paramsEqual ps ps' && typeListEqual cs cs'
  | _, _ => false
termination_by sizeOf t
decreasing_by
  all_goals simp
  all_goals omega

/-- Elementwise Type-list equality. -/
def typeListEqual (l l' : List AkType) : Bool :=
  match l, l' with
  | [], [] => true
  | x :: xs, y :: ys => typeIsEqual x y && typeListEqual xs ys
  | _, _ => false
termination_by sizeOf l
decreasing_by
  all_goals simp
  all_goals omega
end

theorem typeIsEqual_refl : ∀ (n : Nat),
    (∀ (t : AkType), sizeOf t ≤ n → typeIsEqual t t = true)
    ∧ (∀ (l : List AkType), sizeOf l ≤ n → typeListEqual l l = true) := by
  intro n
  induction n with
  | zero =>
    constructor
    · intro t hsz
      exfalso
      cases t <;> simp at hsz
    · intro l hsz
      cases l with
      | nil => simp only [typeListEqual]
      | cons x xs => exfalso; simp at hsz
  | succ n ih =>
    obtain ⟨iht, ihl⟩ := ih
    constructor
    · intro t hsz
      cases t <;>
        simp [typeIsEqual, paramsEqual_refl] <;>
        first
        | (apply iht; simp at hsz; omega)
        | (apply ihl; simp at hsz; omega)
    · intro l hsz
      cases l with
      | nil => simp only [typeListEqual]
      | cons x xs =>
        rw [typeListEqual]
        rw [iht x (by simp at hsz; omega), ihl xs (by simp at hsz; omega)]
        rfl

theorem beq_flip {α : Type} [BEq α] [LawfulBEq α] (a b : α) : (a == b) = (b == a) := by
  cases hab : a == b <;> cases hba : b == a <;> simp_all

theorem typeIsEqual_symm_aux : ∀ (n : Nat),
    (∀ (t t' : AkType), sizeOf t + sizeOf t' ≤ n → typeIsEqual t t' = typeIsEqual t' t)
    ∧ (∀ (l l' : List AkType), sizeOf l + sizeOf l' ≤ n →
        typeListEqual l l' = typeListEqual l' l) := by
  intro n
  induction n with
  | zero =>
    constructor
    · intro t t' hsz
      exfalso
      cases t <;> simp at hsz
    · intro l l' hsz
      cases l with
      | nil =>
        cases l' with
        | nil => rfl
        | cons y ys => exfalso; simp at hsz
      | cons x xs => exfalso; simp at hsz
  | succ n ih =>
    obtain ⟨iht, ihl⟩ := ih
    constructor
    · intro t t' hsz
      cases t <;> cases t' <;>
      first
      | (simp only [typeIsEqual]
         rename_i c sz ps c' sz' ps'
         rw [beq_flip, paramsEqual_symm, iht c c' (by simp at hsz; omega)])
      | (simp only [typeIsEqual]
         rename_i cs fs ps cs' fs' ps'
         rw [beq_flip, paramsEqual_symm, ihl cs cs' (by simp at hsz; omega)])
      | (simp only [typeIsEqual]
         rename_i p ps p' ps'
         rw [beq_flip, paramsEqual_symm])
      | (simp only [typeIsEqual]
         rename_i c ps c' ps'
         first
         | rw [paramsEqual_symm, iht c c' (by simp at hsz; omega)]
         | rw [paramsEqual_symm, ihl c c' (by simp at hsz; omega)])
      | (simp only [typeIsEqual]
         rename_i ps ps'
         rw [paramsEqual_symm])
      | simp only [typeIsEqual]
    · intro l l' hsz
      cases l with
      | nil =>
        cases l' with
        | nil => rfl
        | cons y ys => simp only [typeListEqual]
      | cons x xs =>
        cases l' with
        | nil => simp only [typeListEqual]
        | cons y ys =>
          rw [typeListEqual, typeListEqual,
              iht x y (by simp at hsz; omega), ihl xs ys (by simp at hsz; omega)]

/-- Embedding of ArrayType (arraytype.py lines 15-33): a Type paired with a
top-level length that is a non-negative count or the unknown-length sentinel
(none); the behavior mapping takes no part in equality and is omitted. -/
structure ArrayType where
  content : AkType
  length : Option Nat

/-- Embedding of ArrayType.is_equal_to, which is also __eq__ (arraytype.py
lines 67-78): lengths compare equal whenever either side is the
unknown-length sentinel, and contents compare by Type equality. -/
def arrayTypeEq (a b : ArrayType) : Bool :=
  (b.length.isNone || a.length.isNone || a.length == b.length)
    && typeIsEqual a.content b.content

/-- Claim C10: ArrayType equality treats an unknown length as equal to every
length, in both directions, whenever the content types are equal; it is
therefore reflexive and symmetric but not transitive, as the chain
ArrayType(t, 1) == ArrayType(t, unknown) == ArrayType(t, 2) with
ArrayType(t, 1) != ArrayType(t, 2) shows. -/
theorem claim_C10_arraytype_unknown_length :
    (∀ (t t' : AkType) (n : Nat), typeIsEqual t t' = true →
       arrayTypeEq ⟨t, none⟩ ⟨t', some n⟩ = true
       ∧ arrayTypeEq ⟨t, some n⟩ ⟨t', none⟩ = true)
    ∧ (∀ (a : ArrayType), arrayTypeEq a a = true)
    ∧ (∀ (a b : ArrayType), arrayTypeEq a b = arrayTypeEq b a)
    ∧ (∀ (t : AkType), arrayTypeEq ⟨t, some 1⟩ ⟨t, none⟩ = true
        ∧ arrayTypeEq ⟨t, none⟩ ⟨t, some 2⟩ = true
        ∧ arrayTypeEq ⟨t, some 1⟩ ⟨t, some 2⟩ = false) := by
  have hrefl : ∀ (t : AkType), typeIsEqual t t = true :=
    fun t => (typeIsEqual_refl (sizeOf t)).1 t le_rfl
  refine ⟨?_, ?_, ?_, ?_⟩
  · intro t t' n h
    constructor <;> simp [arrayTypeEq, h]
  · intro a
    cases a with
    | mk t l => cases l <;> simp [arrayTypeEq, hrefl]
  · intro a b
    cases a with
    | mk ta la =>
      cases b with
      | mk tb lb =>
        have hsym := (typeIsEqual_symm_aux (sizeOf ta + sizeOf tb)).1 ta tb le_rfl
        cases la <;> cases lb <;> simp [arrayTypeEq, hsym, beq_flip]
  · intro t
    refine ⟨by simp [arrayTypeEq, hrefl], by simp [arrayTypeEq, hrefl], ?_⟩
    simp [arrayTypeEq]

/-- Witness for claim C10: the unknown-length laws applied at a concrete
int64 Type and the length 5. -/
theorem claim_C10_arraytype_unknown_length_witness :
    arrayTypeEq ⟨.numpy "int64" none, none⟩ ⟨.numpy "int64" none, some 5⟩ = true
    ∧ arrayTypeEq ⟨.numpy "int64" none, some 5⟩ ⟨.numpy "int64" none, none⟩ = true :=
  claim_C10_arraytype_unknown_length.1 (.numpy "int64" none) (.numpy "int64" none) 5
    (by simp [typeIsEqual, paramsEqual])

/-- Host scalar values dispatched by the scalar branch of to_layout
(ak_to_layout.py line 93: str, bytes, Number, bool). -/
inductive PyScalar where
  | pystr (s : String)
  | pybytes (bs : List Nat)
  | pyint (n : Int)
  | pybool (b : Bool)

/-- Modelled from the spec: the element type host-value ingestion
(ak.from_iter, not under src/) assigns to one scalar -- a text value becomes
a string list of char uint8 and a bytes value a bytestring list of byte
uint8 (spec §6 host-value ingestion; tests/test_2393_to_layout_promotion.py
lines 9-37). -/
def fromIterScalarElem : PyScalar → AkType
  | .pystr _ =>
    .list (.numpy "uint8" (some [("__array__", "char")]))
      (some [("__array__", "string")])
  | .pybytes _ =>
    .list (.numpy "uint8" (some [("__array__", "byte")]))
      (some [("__array__", "bytestring")])
  | .pyint _ => .numpy "int64" none
  | .pybool _ => .numpy "bool" none

/-- Embedding of the scalar branch of to_layout._impl (ak_to_layout.py lines
93-94): a str/bytes/Number/bool scalar goes through from_iter([array]), a
single-element conversion, so the resulting layout has the scalar's element
type with a top-level length of one. -/
def toLayoutScalarType (v : PyScalar) : ArrayType := ⟨fromIterScalarElem v, some 1⟩

/-- Claim C9: to_layout on a str scalar produces a layout whose array type
is a length-1 string list -- ArrayType(ListType(NumpyType(uint8, char),
string), 1) -- and on a bytes scalar the same with byte/bytestring
parameters. -/
theorem claim_C9_scalar_promotion :
    (∀ (s : String),
       arrayTypeEq (toLayoutScalarType (.pystr s))
         ⟨.list (.numpy "uint8" (some [("__array__", "char")]))
            (some [("__array__", "string")]), some 1⟩ = true)
    ∧ (∀ (bs : List Nat),
       arrayTypeEq (toLayoutScalarType (.pybytes bs))
         ⟨.list (.numpy "uint8" (some [("__array__", "byte")]))
            (some [("__array__", "bytestring")]), some 1⟩ = true) := by
  constructor
  · intro s
    simp [toLayoutScalarType, fromIterScalarElem, arrayTypeEq, typeIsEqual, paramsEqual]
  · intro bs
    simp [toLayoutScalarType, fromIterScalarElem, arrayTypeEq, typeIsEqual, paramsEqual]

/-- Modelled from the spec: shell-style case-sensitive glob matching of a
pattern against a name (glob.fnmatch.fnmatchcase of the Python standard
library, external to the repository): a star matches any run of characters,
a question mark any single character, all others literally; character
classes are not modelled as no claim exercises them. -/
def globMatch : List Char → List Char → Bool
  | [], [] => true
  | [], _ :: _ => false
  | p :: ps, [] => p == '*' && globMatch ps []
  | p :: ps, c :: cs =>
    if p = '*' then globMatch ps (c :: cs) || globMatch (p :: ps) cs
    else if p = '?' then globMatch ps cs
    else p == c && globMatch ps cs
termination_by ps cs => (ps.length, cs.length)

/-- Pattern-segment match as used by RecordForm._select_columns. -/
def fnmatchcase (name pat : String) : Bool := globMatch pat.data name.data

/-- Modelled from the spec: the leaf _select_columns methods are not under
src/; a leaf contributes an output entry exactly when some still-active
pattern is fully exhausted (spec §4.5: a full pattern exhausted counts as
still matching for all deeper levels, and an empty-string specifier matches
the record root itself). -/
def leafSelected (index : Nat) (specifier : List (List String)) (mts : List Bool) : Bool :=
  (specifier.zip mts).any fun im => im.2 && decide (index ≥ im.1.length)

/-- Embedding of the next_matches computation of RecordForm._select_columns
(recordform.py lines 328-332): a pattern stays active for a field when it
was active and is either exhausted or glob-matches the field name at the
current depth. -/
def nextMatches (field : String) (index : Nat) (specifier : List (List String))
    (mts : List Bool) : List Bool :=
  List.zipWith
    (fun m item =>
      m && (decide (index ≥ item.length) || fnmatchcase field (item.getD index "")))
    mts specifier

/-- Field names of a record (recordform.py lines 54-59): tuple-mode records
number their slots. -/
def recordFieldNames (cs : List Form) (fs : Option (List String)) : List String :=
  match fs with
  | some a => a
  | none => (List.range cs.length).map toString

mutual
/-- Embedding of the _select_columns recursion.  Record follows
recordform.py lines 324-348 (narrow the active patterns per field, recurse
at the next depth, keep a field only when its subtree produced output, and
rebuild the record with the kept field-name list); the single-child
composites pass the pattern state through unchanged and rebuild around the
selected child (bytemaskedform.py lines 159-160 and spec §4.5); leaves
report whether they were selected; Union keeps all branches, passing the
state through unchanged (modelled from the spec, §4.5: non-Record
composites pass the active pattern set through unchanged).  The Nat
component counts the output entries the subtree appended. -/
def selectForm (f : Form) (index : Nat) (specifier : List (List String))
    (mts : List Bool) : Form × Nat :=
  match f with
  | .numpy p sh ps fk =>
    (.numpy p sh ps fk, if leafSelected index specifier mts then 1 else 0)
  | .empty ps fk =>
    (.empty ps fk, if leafSelected index specifier mts then 1 else 0)
  | .regular c sz ps fk =>
    let r := selectForm c index specifier mts
    (.regular r.1 sz ps fk, r.2)
  | .list s t c ps fk =>
    let r := selectForm c index specifier mts
    (.list s t r.1 ps fk, r.2)
  | .listoffset o c ps fk =>
    let r := selectForm c index specifier mts
    (.listoffset o r.1 ps fk, r.2)
  | .record cs fs ps fk =>
    let r := selectRecordFields cs (recordFieldNames cs fs) index specifier mts
    (.record r.1 (some r.2.1) ps fk, r.2.2)
  | .indexed i c ps fk =>
    let r := selectForm c index specifier mts
    (.indexed i r.1 ps fk, r.2)
  | .indexedoption i c ps fk =>
    let r := selectForm c index specifier mts
    (.indexedoption i r.1 ps fk, r.2)
  | .bytemasked m c vw ps fk =>
    let r := selectForm c index specifier mts
    (.bytemasked m r.1 vw ps fk, r.2)
  | .bitmasked m c vw lo ps fk =>
    let r := selectForm c index specifier mts
    (.bitmasked m r.1 vw lo ps fk, r.2)
  | .unmasked c ps fk =>
    let r := selectForm c index specifier mts
    (.unmasked r.1 ps fk, r.2)
  | .union t i cs ps fk =>
    let r := selectUnionList cs index specifier mts
    (.union t i r.1 ps fk, r.2)
termination_by sizeOf f
decreasing_by
  all_goals simp
  all_goals omega

/-- Field loop of RecordForm._select_columns, pairing contents with field
names (zip semantics: the shorter list truncates). -/
def selectRecordFields (cs : List Form) (names : List String) (index : Nat)
    (specifier : List (List String)) (mts : List Bool) :
    List Form × List String × Nat :=
  match cs, names with
  | [], _ => ([], [], 0)
  | _ :: _, [] => ([], [], 0)
  | c :: cs', name :: names' =>
    let rest := selectRecordFields cs' names' index specifier mts
    let nm := nextMatches name index specifier mts
    if nm.any (fun b => b) then
      let r := selectForm c (index + 1) specifier nm
      if r.2 ≠ 0 then (r.1 :: rest.1, name :: rest.2.1, r.2 + rest.2.2)
      else rest
    else rest
termination_by sizeOf cs
decreasing_by
  all_goals simp
  all_goals omega

/-- Union branches selected in order, all kept. -/
def selectUnionList (cs : List Form) (index : Nat) (specifier : List (List String))
    (mts : List Bool) : List Form × Nat :=
  match cs with
  | [] => ([], 0)
  | c :: cs' =>
    let r := selectForm c index specifier mts
    let rest := selectUnionList cs' index specifier mts
    (r.1 :: rest.1, r.2 + rest.2)
termination_by sizeOf cs
decreasing_by
  all_goals simp
  all_goals omega
end

/-- Embedding of Form.select_columns (form.py lines 369-390) from the point
where the specifier items have been brace-expanded (the _expand_braces
regex, which is the identity on brace-free items, is not modelled): set
de-duplication (modelled order-preserving, Python set order being
unspecified), splitting items on dots with the empty string denoting the
record root, and the initial all-true match vector follow the source. -/
def selectColumns (f : Form) (specifier : List String) : Form :=
  let specifier := specifier.dedup
  let spec := specifier.map fun item => if item = "" then [] else item.splitOn "."
  (selectForm f 0 spec (specifier.map fun _ => true)).1

mutual
/-- Leaf presence: whether a Form subtree contains at least one leaf
(Numpy or Empty) node, i.e. whether column selection can produce output
inside it. -/
def hasLeaf : Form → Bool
  | .numpy _ _ _ _ => true
  | .empty _ _ => true
  | .regular c _ _ _ => hasLeaf c
  | .list _ _ c _ _ => hasLeaf c
  | .listoffset _ c _ _ => hasLeaf c
  | .record cs _ _ _ => hasLeafList cs
  | .indexed _ c _ _ => hasLeaf c
  | .indexedoption _ c _ _ => hasLeaf c
  | .bytemasked _ c _ _ _ => hasLeaf c
  | .bitmasked _ c _ _ _ _ => hasLeaf c
  | .unmasked c _ _ => hasLeaf c
  | .union _ _ cs _ _ => hasLeafList cs
termination_by f => sizeOf f
decreasing_by
  all_goals simp
  all_goals omega

/-- Leaf presence in a contents list. -/
def hasLeafList : List Form → Bool
  | [] => false
  | c :: cs => hasLeaf c || hasLeafList cs
termination_by cs => sizeOf cs
decreasing_by
  all_goals simp
  all_goals omega
end

mutual
/-- Forms on which empty-specifier column selection is the identity: no
tuple-mode record occurs (selection always rebuilds records with an
explicit field-name list), every record's field-name list matches its
contents in length, and every record field's subtree contains at least one
leaf (a field whose subtree yields no output is dropped). -/
def goodSelect : Form → Bool
  | .numpy _ _ _ _ => true
  | .empty _ _ => true
  | .regular c _ _ _ => goodSelect c
  | .list _ _ c _ _ => goodSelect c
  | .listoffset _ c _ _ => goodSelect c
  | .record cs fs _ _ =>
    (match fs with
     | none => false
     | some a => a.length == cs.length)
    && goodFieldsList cs
  | .indexed _ c _ _ => goodSelect c
  | .indexedoption _ c _ _ => goodSelect c
  | .bytemasked _ c _ _ _ => goodSelect c
  | .bitmasked _ c _ _ _ _ => goodSelect c
  | .unmasked c _ _ => goodSelect c
  | .union _ _ cs _ _ => goodSelectList cs
termination_by f => sizeOf f
decreasing_by
  all_goals simp
  all_goals omega

/-- Union branches need only be themselves good (all branches are kept). -/
def goodSelectList : List Form → Bool
  | [] => true
  | c :: cs => goodSelect c && goodSelectList cs
termination_by cs => sizeOf cs
decreasing_by
  all_goals simp
  all_goals omega

/-- Record fields must be good and contain a leaf. -/
def goodFieldsList : List Form → Bool
  | [] => true
  | c :: cs => hasLeaf c && goodSelect c && goodFieldsList cs
termination_by cs => sizeOf cs
decreasing_by
  all_goals simp
  all_goals omega
end

theorem leafSelected_empty (i : Nat) : leafSelected i [[]] [true] = true := by
  simp [leafSelected]

theorem nextMatches_empty (name : String) (i : Nat) :
    nextMatches name i [[]] [true] = [true] := by
  simp [nextMatches]

theorem selectEmpty_aux : ∀ (n : Nat),
    (∀ (f : Form), sizeOf f ≤ n → goodSelect f = true → ∀ (i : Nat),
      (selectForm f i [[]] [true]).1 = f
      ∧ (hasLeaf f = true → (selectForm f i [[]] [true]).2 ≠ 0))
    ∧ (∀ (cs : List Form), sizeOf cs ≤ n → goodSelectList cs = true → ∀ (i : Nat),
      (selectUnionList cs i [[]] [true]).1 = cs
      ∧ (hasLeafList cs = true → (selectUnionList cs i [[]] [true]).2 ≠ 0))
    ∧ (∀ (cs : List Form) (a : List String), sizeOf cs ≤ n → goodFieldsList cs = true →
      a.length = cs.length → ∀ (i : Nat),
      (selectRecordFields cs a i [[]] [true]).1 = cs
      ∧ (selectRecordFields cs a i [[]] [true]).2.1 = a
      ∧ (hasLeafList cs = true → (selectRecordFields cs a i [[]] [true]).2.2 ≠ 0)) := by
  intro n
  induction n with
  | zero =>
    refine ⟨?_, ?_, ?_⟩
    · intro f hsz
      exfalso
      cases f <;> simp at hsz
    · intro cs hsz hg i
      cases cs with
      | nil => simp [selectUnionList, hasLeafList]
      | cons c cs' => exfalso; simp at hsz
    · intro cs a hsz hg hlen i
      cases cs with
      | nil =>
        cases a with
        | nil => simp [selectRecordFields, hasLeafList]
        | cons x xs => simp at hlen
      | cons c cs' => exfalso; simp at hsz
  | succ n ih =>
    obtain ⟨ihf, ihl, ihr⟩ := ih
    refine ⟨?_, ?_, ?_⟩
    · intro f hsz hgood i
      cases f with
      | numpy p sh ps fk => simp [selectForm, leafSelected_empty, hasLeaf]
      | empty ps fk => simp [selectForm, leafSelected_empty, hasLeaf]
      | regular c sz ps fk =>
        have hg : goodSelect c = true := by simpa [goodSelect] using hgood
        have h := ihf c (by simp at hsz; omega) hg i
        exact ⟨by simp [selectForm, h.1],
          fun hl => by
            simp only [selectForm]
            exact h.2 (by simpa [hasLeaf] using hl)⟩
      | list s t c ps fk =>
        have hg : goodSelect c = true := by simpa [goodSelect] using hgood
        have h := ihf c (by simp at hsz; omega) hg i
        exact ⟨by simp [selectForm, h.1],
          fun hl => by
            simp only [selectForm]
            exact h.2 (by simpa [hasLeaf] using hl)⟩
      | listoffset o c ps fk =>
        have hg : goodSelect c = true := by simpa [goodSelect] using hgood
        have h := ihf c (by simp at hsz; omega) hg i
        exact ⟨by simp [selectForm, h.1],
          fun hl => by
            simp only [selectForm]
            exact h.2 (by simpa [hasLeaf] using hl)⟩
      | record cs fs ps fk =>
        cases fs with
        | none => simp [goodSelect] at hgood
        | some a =>
          have hgood' : (a.length == cs.length && goodFieldsList cs) = true := by
            simpa [goodSelect] using hgood
          simp only [Bool.and_eq_true, beq_iff_eq] at hgood'
          have h := ihr cs a (by simp at hsz; omega) hgood'.2 hgood'.1 i
          refine ⟨?_, ?_⟩
          · simp only [selectForm, recordFieldNames]
            rw [h.1, h.2.1]
          · intro hl
            simp only [selectForm, recordFieldNames]
            exact h.2.2 (by simpa [hasLeaf] using hl)
      | indexed j c ps fk =>
        have hg : goodSelect c = true := by simpa [goodSelect] using hgood
        have h := ihf c (by simp at hsz; omega) hg i
        exact ⟨by simp [selectForm, h.1],
          fun hl => by
            simp only [selectForm]
            exact h.2 (by simpa [hasLeaf] using hl)⟩
      | indexedoption j c ps fk =>
        have hg : goodSelect c = true := by simpa [goodSelect] using hgood
        have h := ihf c (by simp at hsz; omega) hg i
        exact ⟨by simp [selectForm, h.1],
          fun hl => by
            simp only [selectForm]
            exact h.2 (by simpa [hasLeaf] using hl)⟩
      | bytemasked m c vw ps fk =>
        have hg : goodSelect c = true := by simpa [goodSelect] using hgood
        have h := ihf c (by simp at hsz; omega) hg i
        exact ⟨by simp [selectForm, h.1],
          fun hl => by
            simp only [selectForm]
            exact h.2 (by simpa [hasLeaf] using hl)⟩
      | bitmasked m c vw lo ps fk =>
        have hg : goodSelect c = true := by simpa [goodSelect] using hgood
        have h := ihf c (by simp at hsz; omega) hg i
        exact ⟨by simp [selectForm, h.1],
          fun hl => by
            simp only [selectForm]
            exact h.2 (by simpa [hasLeaf] using hl)⟩
      | unmasked c ps fk =>
        have hg : goodSelect c = true := by simpa [goodSelect] using hgood
        have h := ihf c (by simp at hsz; omega) hg i
        exact ⟨by simp [selectForm, h.1],
          fun hl => by
            simp only [selectForm]
            exact h.2 (by simpa [hasLeaf] using hl)⟩
      | union t j cs ps fk =>
        have hg : goodSelectList cs = true := by simpa [goodSelect] using hgood
        have h := ihl cs (by simp at hsz; omega) hg i
        refine ⟨by simp [selectForm, h.1], ?_⟩
        intro hl
        simp only [selectForm]
        exact h.2 (by simpa [hasLeaf] using hl)
    · intro cs hsz hg i
      cases cs with
      | nil => simp [selectUnionList, hasLeafList]
      | cons c cs' =>
        have hg' : (goodSelect c && goodSelectList cs') = true := by
          simpa [goodSelectList] using hg
        simp only [Bool.and_eq_true] at hg'
        have h1 := ihf c (by simp at hsz; omega) hg'.1 i
        have h2 := ihl cs' (by simp at hsz; omega) hg'.2 i
        refine ⟨by simp [selectUnionList, h1.1, h2.1], ?_⟩
        intro hl
        simp only [selectUnionList]
        rcases (by simpa [hasLeafList] using hl :
            hasLeaf c = true ∨ hasLeafList cs' = true) with hc | hcs
        · have := h1.2 hc
          simp
          omega
        · have := h2.2 hcs
          simp
          omega
    · intro cs a hsz hg hlen i
      cases cs with
      | nil =>
        cases a with
        | nil => simp [selectRecordFields, hasLeafList]
        | cons x xs => simp at hlen
      | cons c cs' =>
        cases a with
        | nil => simp at hlen
        | cons name names' =>
          have hg' : (hasLeaf c && goodSelect c && goodFieldsList cs') = true := by
            simpa [goodFieldsList] using hg
          simp only [Bool.and_eq_true] at hg'
          have hlen' : names'.length = cs'.length := by simpa using hlen
          have h1 := ihf c (by simp at hsz; omega) hg'.1.2 (i + 1)
          have hpos := h1.2 hg'.1.1
          have h2 := ihr cs' names' (by simp at hsz; omega) hg'.2 hlen' i
          have hstep : selectRecordFields (c :: cs') (name :: names') i [[]] [true]
              = ((selectForm c (i + 1) [[]] [true]).1
                    :: (selectRecordFields cs' names' i [[]] [true]).1,
                 name :: (selectRecordFields cs' names' i [[]] [true]).2.1,
                 (selectForm c (i + 1) [[]] [true]).2
                    + (selectRecordFields cs' names' i [[]] [true]).2.2) := by
            simp only [selectRecordFields, nextMatches_empty]
            simp [hpos]
          rw [hstep]
          refine ⟨by simp [h1.1, h2.1], by simp [h2.2.1], ?_⟩
          intro hl
          simp
          omega

/-- Counterexample to claim C8: on a tuple-mode record (fields is None),
select_columns("") rebuilds the record with the positional field-name list,
so the result is a fielded record that is not structurally equal to the
original. -/
theorem claim_C8_counterexample :
    selectColumns (.record [.numpy "int64" [] none none] none none none) [""]
      = .record [.numpy "int64" [] none none] (some ["0"]) none none
    ∧ formEq (selectColumns (.record [.numpy "int64" [] none none] none none none) [""])
        (.record [.numpy "int64" [] none none] none none none) = false := by
  have hd : ([""] : List String).dedup = [""] := by decide
  have h : selectColumns (.record [.numpy "int64" [] none none] none none none) [""]
      = .record [.numpy "int64" [] none none] (some ["0"]) none none := by
    have hr : List.map toString (List.range 1) = ["0"] := by decide
    simp only [selectColumns, hd, List.map]
    simp only [reduceIte]
    simp [selectForm, selectRecordFields, recordFieldNames, hr, nextMatches_empty,
      leafSelected_empty]
  exact ⟨h, by rw [h]; exact (formEq_record_mixed _ _ _ _ _ _ _).1⟩

/-- Claim C8 amended: select_columns("") is the identity on every Form with
no tuple-mode record, whose records pair every field name with a content,
and whose record fields each contain at least one leaf; on such forms the
selection returns the original tree (literally, hence structurally
equal). -/
theorem claim_C8_select_empty_identity (f : Form) (h : goodSelect f = true) :
    selectColumns f [""] = f := by
  have hd : ([""] : List String).dedup = [""] := by decide
  simp only [selectColumns, hd, List.map]
  simp only [reduceIte]
  exact ((selectEmpty_aux (sizeOf f)).1 f le_rfl h 0).1

/-- Witness for the amended claim C8: a one-field record of int64. -/
theorem claim_C8_select_empty_identity_witness :
    selectColumns (.record [.numpy "int64" [] none none] (some ["x"]) none none) [""]
      = .record [.numpy "int64" [] none none] (some ["x"]) none none :=
  claim_C8_select_empty_identity _
    (by simp [goodSelect, goodFieldsList, hasLeaf])
